import Mathlib

/-!
# Verification of the syscall-intercept tracing/audit layer

A shallow embedding, in Lean 4, of `src/intercept_util.c` from the
`syscall_intercept` repository: the primitive text encoders
(`print_number`, `print_signed_dec`, `print_pointer`, `print_fd`,
`print_atfd`), the flag-set decoder (`print_flag`, `print_flag_set`,
`print_open_flags`), the escaped-buffer encoder (`xprint_escape`), the
generic format-descriptor printer (`print_syscall`), the per-syscall
dispatch of `intercept_log_syscall`, and the log-sink operations
(`intercept_setup_log`, `intercept_log`, `intercept_log_close`).

Conventions of the embedding:
* C `long` values are `Int`; unsigned 64-bit conversion is explicit
  (`toULong`), as are 32-bit truncation (`toInt32`) and the unsigned
  negation used by `print_signed_dec` (`negULong`).
* Buffers of bytes are `List (Fin 256)`; a C `char *` argument is an
  `Option (List (Fin 256))`, `none` standing for the NULL pointer.
* Every C function that appends text to a caller-supplied buffer is
  modelled as a function returning the appended characters
  (`List Char`); the C buffer content is the concatenation.
* Loops are modelled with explicit fuel so that every definition is
  structurally recursive and evaluates by kernel reduction; the fuel
  supplied by each wrapper provably dominates the iteration count.
* Side effects on the process (raw writes, file open/close) are
  modelled as an event list (`SinkEvent`), and the process-wide
  `log_fd` as an explicit `SinkState`.
-/

set_option maxRecDepth 100000
set_option maxHeartbeats 2000000

namespace InterceptUtil

/-- A byte, the value of one C `char` viewed as `unsigned char`. -/
abbrev Byte : Type := Fin 256

/-- Unsigned 64-bit view of a C `long`: reduction of the integer mod 2^64.
For values in the representable range of a 64-bit `long` this is exactly
the two's-complement bit pattern read as `unsigned long`. -/
def toULong (v : Int) : Nat := (v % (2 ^ 64 : Int)).toNat

/-- Unsigned 64-bit negation, the C expression `-((unsigned long)n)`. -/
def negULong (u : Nat) : Nat := (2 ^ 64 - u) % 2 ^ 64

/-- Truncation of a C `long` to a C `int` (two's complement, 32 bit). -/
def toInt32 (v : Int) : Int := (v + 2 ^ 31) % 2 ^ 32 - 2 ^ 31

/-- Sign extension of a 32-bit pattern to a 64-bit pattern: what happens
to the bit pattern when a C `int` is passed where a `long` is expected. -/
def sext32 (p : Nat) : Nat := if p < 2 ^ 31 then p else 2 ^ 64 - (2 ^ 32 - p)

/-- Bitwise AND of the low `k` bits of two naturals, written with
structural recursion so that it computes by kernel reduction.  The
early exit when an operand is exhausted is sound for AND and keeps the
definition inert when an operand is a free variable. -/
def andBits : Nat → Nat → Nat → Nat
  | 0, _, _ => 0
  | k + 1, a, b =>
    if a = 0 ∨ b = 0 then 0
    else (if a % 2 = 1 ∧ b % 2 = 1 then 1 else 0) + 2 * andBits k (a / 2) (b / 2)

/-- 64-bit bitwise AND: the C `&` of two `long` values viewed through
their unsigned 64-bit patterns. -/
def land64 (a b : Nat) : Nat := andBits 64 a b

/-- 64-bit bitwise complement `~x` of a pattern `x < 2^64`. -/
def comp64 (x : Nat) : Nat := 2 ^ 64 - 1 - x

/-- The digit characters of `print_number`:
`static const char digit_chars[] = "0123456789abcdef";`. -/
def digitChar (k : Nat) : Char :=
  "0123456789abcdef".data.getD k '0'

/-- The do-while loop of `print_number`, building the digit string most
significant digit first (digits are produced least-significant first and
prepended).  One digit is emitted per entry; the loop continues while the
remaining value or the remaining requested width is positive.  `fuel`
bounds the number of *further* iterations and is unreachable as 0 for the
fuel supplied by `print_number`. -/
def printNumLoop (base : Nat) : Nat → Nat → Nat → List Char → List Char
  | 0, n, _, acc => digitChar (n % base) :: acc
  | fuel + 1, n, width, acc =>
    if 0 < n / base ∨ 0 < width - 1 then
      printNumLoop base fuel (n / base) (width - 1) (digitChar (n % base) :: acc)
    else digitChar (n % base) :: acc

/-- `print_number(dst, n, base, width)`: the characters appended to `dst`.
The width is clamped to 30 (`sizeof(digits) - 2`) exactly as in the C. -/
def print_number (n : Nat) (base : Nat) (width : Nat) : List Char :=
  let w := if 31 ≤ width then 30 else width
  printNumLoop base (n + w) n w []

/-- `print_pointer`: `(null)` for 0, otherwise `0x` and 16 zero-padded
lower-case hex digits. -/
def print_pointer (pointer : Int) : List Char :=
  if pointer = 0 then "(null)".data
  else '0' :: 'x' :: print_number (toULong pointer) 16 16

/-- `print_signed_dec(dst, n)`: for a negative `long` the C prints `-`
followed by `-((unsigned long)n)` (unsigned negation, well defined also
for the minimum representable value); otherwise `(unsigned long)n`.
Decimal, minimum width 1. -/
def print_signed_dec (n : Int) : List Char :=
  if 0 ≤ n then print_number (toULong n) 10 1
  else '-' :: print_number (negULong (toULong n)) 10 1

/-- `print_fd`: an fd is printed as a signed decimal number. -/
def print_fd (n : Int) : List Char := print_signed_dec n

/-- `AT_FDCWD` on Linux. -/
def AT_FDCWD : Int := -100

/-- `print_atfd`: like `print_fd` but recognizing `AT_FDCWD`. -/
def print_atfd (n : Int) : List Char :=
  if n = AT_FDCWD then "AT_FDCWD".data else print_fd n

/-! ## Flag-set decoder -/

/-- `struct flag_desc`: one (bit-mask, printable name) pair.  The mask is
kept as the unsigned 64-bit pattern of the C `long` constant. -/
structure FlagDesc where
  flag : Nat
  printable_name : List Char
deriving DecidableEq

/-- `print_flag(buffer_start, c, flag_name)`: appends `" | "` before the
name when the iterator is not at the start of the list.  `started` models
`c != buffer_start`. -/
def print_flag (started : Bool) (flag_name : List Char) : List Char :=
  (if started then " | ".data else []) ++ flag_name

/-- The `while` loop of `print_flag_set`: walks the table while the
remaining mask and the current entry's mask are nonzero; on any bit
overlap appends the entry's name and clears the entry's bits.  Returns
the appended text, whether anything has ever been appended
(`c != buffer_start`), and the remaining mask. -/
def flagSetLoop (started : Bool) (flags : Nat) :
    List FlagDesc → List Char × Bool × Nat
  | [] => ([], started, flags)
  | d :: rest =>
    if flags = 0 then ([], started, flags)
    else if d.flag = 0 then ([], started, flags)
    else if land64 flags d.flag ≠ 0 then
      let r := flagSetLoop true (land64 flags (comp64 d.flag)) rest
      (print_flag started d.printable_name ++ r.1, r.2)
    else flagSetLoop started flags rest

/-- `print_flag_set(buffer_start, c, flags, desc)`: the loop above, then a
`0x`-prefixed hex remainder if bits are left, then the literal `0` if
nothing was ever appended.  `started` models `c != buffer_start` on
entry; `flags` is the unsigned 64-bit pattern of the `long` argument. -/
def print_flag_set (started : Bool) (flags : Nat) (desc : List FlagDesc) :
    List Char :=
  let r := flagSetLoop started flags desc
  if r.2.2 ≠ 0 then
    r.1 ++ (if r.2.1 then " | ".data else []) ++
      '0' :: 'x' :: print_number r.2.2 16 1
  else if r.2.1 then r.1 else r.1 ++ "0".data

/-- The `open_flags` table, in source order, with the Linux values of the
octal constants.  `O_EXEC`, `O_SEARCH` and `O_TTY_INIT` are not defined
on Linux, so their conditionally-compiled entries are absent.  Note that
on Linux `O_RSYNC == O_SYNC`, so both entries carry the same mask. -/
def open_flags : List FlagDesc :=
  [⟨1024, "O_APPEND".data⟩,
   ⟨524288, "O_CLOEXEC".data⟩,
   ⟨64, "O_CREAT".data⟩,
   ⟨65536, "O_DIRECTORY".data⟩,
   ⟨4096, "O_DSYNC".data⟩,
   ⟨128, "O_EXCL".data⟩,
   ⟨256, "O_NOCTTY".data⟩,
   ⟨131072, "O_NOFOLLOW".data⟩,
   ⟨2048, "O_NONBLOCK".data⟩,
   ⟨1052672, "O_RSYNC".data⟩,
   ⟨1052672, "O_SYNC".data⟩,
   ⟨512, "O_TRUNC".data⟩]

/-- `print_open_flags(buffer, flags)`: the access-mode triple is decoded
by hand (`O_RDWR` = 2 first, then `O_WRONLY` = 1, then `O_RDONLY` when
neither bit is set), the remaining bits via `print_flag_set` with the
`open_flags` table.  The argument is the C `int` taken from the variadic
list; its 64-bit pattern (sign extension of the 32-bit pattern) is what
the `long` parameter of `print_flag_set` receives. -/
def print_open_flags (v : Int) : List Char :=
  if v = 0 then "O_RDONLY".data
  else
    let p := toULong v
    let acc1 := if land64 p 2 = 2 then print_flag false "O_RDWR".data else []
    let acc2 := acc1 ++
      (if land64 p 1 = 1 then print_flag (acc1 ≠ []) "O_WRONLY".data else [])
    let acc3 := acc2 ++
      (if land64 p 3 = 0 then print_flag (acc2 ≠ []) "O_RDONLY".data else [])
    acc3 ++ print_flag_set (acc3 ≠ []) (land64 p (comp64 3)) open_flags

/-- `fcntl_name(cmd)`: the closed static lookup of an fcntl command name.
Commands under `#ifdef F_ADD_SEALS` are absent (with them the `switch`
would have duplicate case labels on Linux and could not compile); the
`F_OFD_*` block is present.  Linux values. -/
def fcntl_name (cmd : Int) : List Char :=
  if cmd = 0 then "F_DUPFD".data
  else if cmd = 1030 then "F_DUPFD_CLOEXEC".data
  else if cmd = 1 then "F_GETFD".data
  else if cmd = 2 then "F_SETFD".data
  else if cmd = 3 then "F_GETFL".data
  else if cmd = 4 then "F_SETFL".data
  else if cmd = 6 then "F_SETLK".data
  else if cmd = 7 then "F_SETLKW".data
  else if cmd = 5 then "F_GETLK".data
  else if cmd = 37 then "F_OFD_SETLK".data
  else if cmd = 38 then "F_OFD_SETLKW".data
  else if cmd = 36 then "F_OFD_GETLK".data
  else if cmd = 9 then "F_GETOWN".data
  else if cmd = 8 then "F_SETOWN".data
  else if cmd = 16 then "F_GETOWN_EX".data
  else if cmd = 15 then "F_SETOWN_EX".data
  else if cmd = 11 then "F_GETSIG".data
  else if cmd = 10 then "F_SETSIG".data
  else if cmd = 1024 then "F_SETLEASE".data
  else if cmd = 1025 then "F_GETLEASE".data
  else if cmd = 1026 then "F_NOTIFY".data
  else if cmd = 1031 then "F_SETPIPE_SZ".data
  else if cmd = 1032 then "F_GETPIPE_SZ".data
  else "unknown".data

/-- `print_fcntl_cmd`: `sprintf(buffer, "%ld (%s)", cmd, fcntl_name(cmd))`,
the signed decimal command followed by its parenthesized name. -/
def print_fcntl_cmd (cmd : Int) : List Char :=
  print_signed_dec cmd ++ " (".data ++ fcntl_name cmd ++ ")".data

/-- The `clone_flags` table, in source order, Linux values.  All of the
conditionally-compiled entries exist on Linux. -/
def clone_flags : List FlagDesc :=
  [⟨0x00200000, "CLONE_CHILD_CLEARTID".data⟩,
   ⟨0x01000000, "CLONE_CHILD_SETTID".data⟩,
   ⟨0x00000400, "CLONE_FILES".data⟩,
   ⟨0x00000200, "CLONE_FS".data⟩,
   ⟨0x80000000, "CLONE_IO".data⟩,
   ⟨0x02000000, "CLONE_NEWCGROUP".data⟩,
   ⟨0x08000000, "CLONE_NEWIPC".data⟩,
   ⟨0x40000000, "CLONE_NEWNET".data⟩,
   ⟨0x00020000, "CLONE_NEWNS".data⟩,
   ⟨0x20000000, "CLONE_NEWPID".data⟩,
   ⟨0x10000000, "CLONE_NEWUSER".data⟩,
   ⟨0x04000000, "CLONE_NEWUTS".data⟩,
   ⟨0x00008000, "CLONE_PARENT".data⟩,
   ⟨0x00100000, "CLONE_PARENT_SETTID".data⟩,
   ⟨0x00002000, "CLONE_PTRACE".data⟩,
   ⟨0x00080000, "CLONE_SETTLS".data⟩,
   ⟨0x00000800, "CLONE_SIGHAND".data⟩,
   ⟨0x00040000, "CLONE_SYSVSEM".data⟩,
   ⟨0x00010000, "CLONE_THREAD".data⟩,
   ⟨0x00800000, "CLONE_UNTRACED".data⟩,
   ⟨0x00004000, "CLONE_VFORK".data⟩,
   ⟨0x00000100, "CLONE_VM".data⟩]

/-! ## Escaped-buffer encoder -/

/-- The per-byte classification of the `xprint_escape` loop body, in the
source's test order: `"` and `\` are backslash-escaped, printable ASCII
(`isprint` in the C locale: 0x20–0x7e) passes through, the eight control
characters with short mnemonics get them, anything else becomes `\x` and
exactly two hex digits. -/
def escByte (b : Byte) : List Char :=
  if b.val = 34 then ['\\', '"']
  else if b.val = 92 then ['\\', '\\']
  else if 32 ≤ b.val ∧ b.val ≤ 126 then [Char.ofNat b.val]
  else if b.val = 10 then ['\\', 'n']
  else if b.val = 9 then ['\\', 't']
  else if b.val = 13 then ['\\', 'r']
  else if b.val = 7 then ['\\', 'a']
  else if b.val = 8 then ['\\', 'b']
  else if b.val = 12 then ['\\', 'f']
  else if b.val = 11 then ['\\', 'v']
  else if b.val = 0 then ['\\', '0']
  else '\\' :: 'x' :: print_number b.val 16 2

/-- The `xprint_escape` loop in zero-terminated mode.  `bound` is the
reserved boundary `dst_size - 5` (an offset from the buffer start),
`p` the current write offset.  A run off the end of the byte list stands
for reaching the terminator of a terminated buffer.  Returns the emitted
characters and whether the source was *not* exhausted when the loop
stopped (the post-loop `*src != 0` test), which triggers the ellipsis. -/
def escLoopZ (bound : Nat) : Nat → List Byte → List Char × Bool
  | _, [] => ([], false)
  | p, b :: rest =>
    if b = (0 : Byte) then ([], false)
    else if p < bound then
      let r := escLoopZ bound (p + (escByte b).length) rest
      (escByte b ++ r.1, r.2)
    else ([], true)

/-- The `xprint_escape` loop in counted mode: stops after `src_size`
bytes (zero bytes are escaped verbatim) or at the capacity boundary; the
post-loop `src_size > 0` test triggers the ellipsis.  Reading past the
end of the byte list would be reading past the caller's buffer in C; it
is modelled as the byte 0. -/
def escLoopC (bound : Nat) : Nat → List Byte → Nat → List Char × Bool
  | _, _, 0 => ([], false)
  | p, src, sz + 1 =>
    if p < bound then
      let b := src.headD (0 : Byte)
      let r := escLoopC bound (p + (escByte b).length) src.tail sz
      (escByte b ++ r.1, r.2)
    else ([], true)

/-- `xprint_escape(dst, src, dst_size, zero_term, src_size)`: the
characters placed before the final NUL.  A NULL source prints the
literal `(null)`; otherwise an opening quote, the loop's output, an
ellipsis when the source was not exhausted, and a closing quote. -/
def xprint_escape (dst_size : Nat) (src : Option (List Byte))
    (zero_term : Bool) (src_size : Nat) : List Char :=
  match src with
  | none => "(null)".data
  | some s =>
    let bound := dst_size - 5
    let r :=
      if zero_term then escLoopZ bound 1 s else escLoopC bound 1 s src_size
    '"' :: r.1 ++ (if r.2 then "...".data else []) ++ ['"']

/-- The total number of destination bytes `xprint_escape` writes,
terminating NUL included (`print_cstr` writes one after `(null)`, and
the function always stores one after the closing quote; the NUL written
by `print_cstr` after an ellipsis is overwritten by the closing quote and
does not extend the region).  The written region is exactly the printed
characters plus one trailing NUL. -/
def xprintEscapeBytesWritten (dst_size : Nat) (src : Option (List Byte))
    (zero_term : Bool) (src_size : Nat) : Nat :=
  (xprint_escape dst_size src zero_term src_size).length + 1

/-! ## Generic format-descriptor printer -/

/-- The result-visibility marker `enum intercept_log_result`.
Modelled from the spec: the enum is declared in `intercept_util.h`,
which is not part of the sources at hand; the spec describes it as the
marker {KNOWN, UNKNOWN} distinguishing calls whose outcome could be
safely captured from those where only the arguments can be logged. -/
inductive LogResult where
  | known
  | unknown
deriving DecidableEq

/-- One (format code, raw argument) pair of the variadic sequence
consumed by `print_syscall`, as a tagged union.  For the pointer-typed
formats the pointed-to bytes are carried directly (`none` for NULL);
for `F_BUF` the separately-passed `size_t` comes first, as in the
variadic call.  Numeric formats record the conversion the corresponding
`va_arg` performs on the raw `long`. -/
inductive FmtArg where
  | dec (v : Int)
  | octMode (v : Nat)
  | hex (v : Nat)
  | str (buf : Option (List Byte))
  | buf (size : Nat) (data : Option (List Byte))
  | openFlags (v : Int)
  | fcntlCmd (v : Int)
  | cloneFlags (v : Int)
  | fd (v : Int)
  | atfd (v : Int)
  | pointer (v : Int)
deriving DecidableEq

/-- Dispatch of one format code to its encoder, mirroring the `if`
chain in the loop of `print_syscall`.  `F_STR` and `F_BUF` call
`xprint_escape` with a destination capacity of 0x80. -/
def printArg : FmtArg → List Char
  | .dec v => print_signed_dec v
  | .octMode v => '0' :: print_number v 8 1
  | .hex v => '0' :: 'x' :: print_number v 16 1
  | .str b => xprint_escape 0x80 b true 0
  | .buf size data => xprint_escape 0x80 data false size
  | .openFlags v => print_open_flags (toInt32 v)
  | .fcntlCmd v => print_fcntl_cmd v
  | .cloneFlags v => print_flag_set false (toULong (toInt32 v)) clone_flags
  | .fd v => print_fd v
  | .atfd v => print_atfd v
  | .pointer v => print_pointer v

/-- The argument loop of `print_syscall`: arguments separated by `", "`,
no separator before the first. -/
def joinArgs : List FmtArg → List Char
  | [] => []
  | [a] => printArg a
  | a :: rest => printArg a ++ ", ".data ++ joinArgs rest

/-- The result segment: `?` when the marker is UNKNOWN, otherwise the
signed decimal result. -/
def resultSeg (rk : LogResult) (result : Int) : List Char :=
  match rk with
  | .known => print_signed_dec result
  | .unknown => "?".data

/-- The text `print_syscall` produces when the declared argument count
matches the supplied pairs: `name(a0, a1, ...) = R`. -/
def lineBody (name : List Char) (args : List FmtArg) (rk : LogResult)
    (result : Int) : List Char :=
  name ++ "(".data ++ joinArgs args ++ ") = ".data ++ resultSeg rk result

/-- `print_syscall(b, name, args, ...)`.  The C reads `args` format
codes from the variadic sequence; when the count matches the number of
pairs actually passed, the output is `lineBody`.  When it does not (the
`mkdirat` dispatch entry declares 4 but supplies 3 pairs), the loop
consumes the result-marker and result slots as formats/arguments and
then reads past the end of the supplied variadic arguments: undefined
behavior in C, with no defined result in this embedding (`none`). -/
def print_syscall (name : List Char) (args : Nat) (pairs : List FmtArg)
    (rk : LogResult) (result : Int) : Option (List Char) :=
  if args = pairs.length then some (lineBody name pairs rk result)
  else none

/-! ## Log sink -/

/-- The process-wide sink state: the C `static int log_fd = -1`. -/
structure SinkState where
  fd : Int
deriving DecidableEq

/-- Raw kernel operations performed by the sink, in order. -/
inductive SinkEvent where
  | closeFd (fd : Int)
  | openFd (path : List Char) (flags : Nat) (mode : Nat)
  | writeBytes (fd : Int) (bytes : List Char)
deriving DecidableEq

/-- `intercept_log(buffer, len)`: a raw append write when a log is open,
a no-op otherwise.  The state is never changed. -/
def intercept_log (st : SinkState) (buffer : List Char) : List SinkEvent :=
  if 0 ≤ st.fd then [.writeBytes st.fd buffer] else []

/-- `intercept_log_close()`: closes the log if one was open and resets
`log_fd` to -1; otherwise a no-op. -/
def intercept_log_close (st : SinkState) : SinkState × List SinkEvent :=
  if 0 ≤ st.fd then (⟨-1⟩, [.closeFd st.fd]) else (st, [])

/-- `O_CREAT | O_RDWR | O_APPEND | O_TRUNC` on Linux. -/
def setupOpenFlagsAll : Nat := 64 + 2 + 1024 + 512

/-- The open flags of `intercept_setup_log`: `O_TRUNC` is removed when
the `trunc` argument is a string starting with `0` (`trunc &&
trunc[0] == '0'`). -/
def setupFlags (trunc : Option (List Char)) : Nat :=
  match trunc with
  | some (c :: _) =>
    if c = '0' then setupOpenFlagsAll - 512 else setupOpenFlagsAll
  | _ => setupOpenFlagsAll

/-- `intercept_setup_log(path_base, trunc)`.  A NULL `path_base` is a
no-op.  Otherwise the byte at index `strlen(path_base) - 1` is read: for
the empty string this is index -1, an out-of-bounds access with no
defined result (`none`).  A trailing `-` appends the process id to the
path.  `O_TRUNC` is dropped when `trunc` starts with `0`.  Any open log
is closed first, then the file is opened; the kernel's fd for the open
(`newFd`) is supplied by the environment, and a negative `newFd` would
abort the process (`xabort_on_syserror`), which is outside this model. -/
def intercept_setup_log (st : SinkState) (path_base : Option (List Char))
    (trunc : Option (List Char)) (pid : Int) (newFd : Int) :
    Option (SinkState × List SinkEvent) :=
  match path_base with
  | none => some (st, [])
  | some pb =>
    match pb.getLast? with
    | none => none
    | some lastc =>
      let path := if lastc = '-' then pb ++ print_signed_dec pid else pb
      let ev1 := (intercept_log_close st).2
      some (⟨newFd⟩, ev1 ++ [.openFd path (setupFlags trunc) 0o700])

/-! ## Per-syscall dispatch -/

/-- The six raw argument words of one intercepted syscall. -/
structure Args where
  a0 : Int
  a1 : Int
  a2 : Int
  a3 : Int
  a4 : Int
  a5 : Int
deriving DecidableEq

/-- The memory visible to the renderer: the bytes readable at each
address.  Used only to look up the contents of pointer arguments. -/
abbrev Mem : Type := Int → List Byte

/-- The buffer a pointer-valued argument refers to: NULL maps to
`none` (the NULL check inside `xprint_escape`). -/
def memArg (mem : Mem) (p : Int) : Option (List Byte) :=
  if p = 0 then none else some (mem p)

/-- The `print_size` computation shared by the `SYS_read` and
`SYS_readlink` branches: the result, or 0 when the result is UNKNOWN
or negative (never the requested length). -/
def readPrintSize (rk : LogResult) (result : Int) : Int :=
  if rk = .unknown ∨ result < 0 then 0 else result

/-- The bytes of the placeholder literal `"???"` that `SYS_getcwd`
renders in place of an unpopulated destination buffer. -/
def qqqBytes : List Byte := [63, 63, 63]

/-- The `SYS_open` branch: the permission-mode argument is included
exactly when `(arg1 & O_CREAT) != 0` (`O_CREAT` = 0o100 = 64). -/
def openBody (a : Args) (mem : Mem) (rk : LogResult) (result : Int) :
    Option (List Char) :=
  if land64 (toULong a.a1) 64 ≠ 0 then
    print_syscall "open".data 3
      [.str (memArg mem a.a0), .openFlags a.a1, .octMode (toULong a.a2)]
      rk result
  else
    print_syscall "open".data 2 [.str (memArg mem a.a0), .openFlags a.a1]
      rk result

/-- The string argument of the `SYS_getcwd` branch:
`result_known == KNOWN ? arg0 : (intptr_t)"???"`. -/
def getcwdStrArg (mem : Mem) (a0 : Int) (rk : LogResult) : FmtArg :=
  .str (if rk = .known then memArg mem a0 else some qqqBytes)

/-- The `if`/`else if` dispatch chain of `intercept_log_syscall`, one
branch per recognized syscall number (x86-64 Linux values, in source
order), producing the `name(args...) = result` portion of the line.
The `SYS_renameat2` and `SYS_execveat` branches are conditionally
compiled and present on Linux. -/
def syscallBody (nr : Int) (a : Args) (mem : Mem) (rk : LogResult)
    (result : Int) : Option (List Char) :=
  if nr = 0 then  -- SYS_read
    print_syscall "read".data 3
      [.fd a.a0, .buf (toULong (readPrintSize rk result)) (memArg mem a.a1), .dec a.a2] rk result
  else if nr = 1 then  -- SYS_write
    print_syscall "write".data 3
      [.fd a.a0, .buf (toULong a.a2) (memArg mem a.a1), .dec a.a2] rk result
  else if nr = 2 then  -- SYS_open
    openBody a mem rk result
  else if nr = 3 then  -- SYS_close
    print_syscall "close".data 1 [.fd a.a0] rk result
  else if nr = 4 then  -- SYS_stat
    print_syscall "stat".data 2 [.str (memArg mem a.a0), .hex (toULong a.a1)] rk result
  else if nr = 5 then  -- SYS_fstat
    print_syscall "fstat".data 2 [.fd a.a0, .hex (toULong a.a1)] rk result
  else if nr = 6 then  -- SYS_lstat
    print_syscall "lstat".data 2 [.str (memArg mem a.a0), .hex (toULong a.a1)] rk result
  else if nr = 8 then  -- SYS_lseek
    print_syscall "lseek".data 3 [.fd a.a0, .dec a.a1, .dec a.a2] rk result
  else if nr = 9 then  -- SYS_mmap
    print_syscall "mmap".data 6
      [.pointer a.a0, .dec a.a1, .dec a.a2, .dec a.a3, .fd a.a4, .hex (toULong a.a5)] rk result
  else if nr = 10 then  -- SYS_mprotect
    print_syscall "mprotect".data 3 [.pointer a.a0, .dec a.a1, .dec a.a2] rk result
  else if nr = 11 then  -- SYS_munmap
    print_syscall "munmap".data 2 [.pointer a.a0, .dec a.a1] rk result
  else if nr = 12 then  -- SYS_brk
    print_syscall "brk".data 1 [.dec a.a0] rk result
  else if nr = 16 then  -- SYS_ioctl
    print_syscall "ioctl".data 3 [.fd a.a0, .dec a.a1, .dec a.a2] rk result
  else if nr = 17 then  -- SYS_pread64
    print_syscall "pread64".data 4
      [.fd a.a0, .buf (toULong a.a2) (memArg mem a.a1), .dec a.a2, .dec a.a3] rk result
  else if nr = 18 then  -- SYS_pwrite64
    print_syscall "pwrite64".data 4
      [.fd a.a0, .buf (toULong a.a2) (memArg mem a.a1), .dec a.a2, .dec a.a3] rk result
  else if nr = 19 then  -- SYS_readv
    print_syscall "readv".data 3 [.fd a.a0, .hex (toULong a.a1), .dec a.a2] rk result
  else if nr = 20 then  -- SYS_writev
    print_syscall "writev".data 3 [.fd a.a0, .hex (toULong a.a1), .dec a.a2] rk result
  else if nr = 21 then  -- SYS_access
    print_syscall "access".data 2 [.str (memArg mem a.a0), .dec a.a1] rk result
  else if nr = 25 then  -- SYS_mremap
    print_syscall "mremap".data 5
      [.pointer a.a0, .dec a.a1, .dec a.a2, .dec a.a3, .hex (toULong a.a4)] rk result
  else if nr = 26 then  -- SYS_msync
    print_syscall "msync".data 3 [.pointer a.a0, .dec a.a1, .dec a.a2] rk result
  else if nr = 32 then  -- SYS_dup
    print_syscall "dup".data 1 [.fd a.a0] rk result
  else if nr = 33 then  -- SYS_dup2
    print_syscall "dup2".data 2 [.fd a.a0, .fd a.a1] rk result
  else if nr = 72 then  -- SYS_fcntl
    print_syscall "fcntl".data 3 [.fd a.a0, .fcntlCmd a.a1, .hex (toULong a.a2)] rk result
  else if nr = 73 then  -- SYS_flock
    print_syscall "flock".data 2 [.fd a.a0, .dec a.a1] rk result
  else if nr = 74 then  -- SYS_fsync
    print_syscall "fsync".data 1 [.fd a.a0] rk result
  else if nr = 75 then  -- SYS_fdatasync
    print_syscall "fdatasync".data 1 [.fd a.a0] rk result
  else if nr = 76 then  -- SYS_truncate
    print_syscall "truncate".data 2 [.str (memArg mem a.a0), .dec a.a1] rk result
  else if nr = 77 then  -- SYS_ftruncate
    print_syscall "ftruncate".data 2 [.fd a.a0, .dec a.a1] rk result
  else if nr = 78 then  -- SYS_getdents
    print_syscall "getdents".data 3 [.fd a.a0, .hex (toULong a.a1), .dec a.a2] rk result
  else if nr = 79 then  -- SYS_getcwd
    print_syscall "getcwd".data 2
      [getcwdStrArg mem a.a0 rk, .dec a.a1] rk result
  else if nr = 80 then  -- SYS_chdir
    print_syscall "chdir".data 1 [.str (memArg mem a.a0)] rk result
  else if nr = 81 then  -- SYS_fchdir
    print_syscall "fchdir".data 1 [.fd a.a0] rk result
  else if nr = 82 then  -- SYS_rename
    print_syscall "rename".data 2 [.str (memArg mem a.a0), .str (memArg mem a.a1)] rk result
  else if nr = 83 then  -- SYS_mkdir
    print_syscall "mkdir".data 2 [.str (memArg mem a.a0), .octMode (toULong a.a1)] rk result
  else if nr = 84 then  -- SYS_rmdir
    print_syscall "rmdir".data 1 [.str (memArg mem a.a0)] rk result
  else if nr = 85 then  -- SYS_creat
    print_syscall "creat".data 2 [.str (memArg mem a.a0), .octMode (toULong a.a1)] rk result
  else if nr = 86 then  -- SYS_link
    print_syscall "link".data 2 [.str (memArg mem a.a0), .str (memArg mem a.a1)] rk result
  else if nr = 87 then  -- SYS_unlink
    print_syscall "unlink".data 1 [.str (memArg mem a.a0)] rk result
  else if nr = 88 then  -- SYS_symlink
    print_syscall "symlink".data 2 [.str (memArg mem a.a0), .str (memArg mem a.a1)] rk result
  else if nr = 89 then  -- SYS_readlink
    print_syscall "readlink".data 3
      [.str (memArg mem a.a0), .buf (toULong (readPrintSize rk result)) (memArg mem a.a1), .dec a.a2] rk result
  else if nr = 90 then  -- SYS_chmod
    print_syscall "chmod".data 2 [.str (memArg mem a.a0), .octMode (toULong a.a1)] rk result
  else if nr = 91 then  -- SYS_fchmod
    print_syscall "fchmod".data 2 [.fd a.a0, .octMode (toULong a.a1)] rk result
  else if nr = 92 then  -- SYS_chown
    print_syscall "chown".data 3 [.str (memArg mem a.a0), .dec a.a1, .dec a.a2] rk result
  else if nr = 93 then  -- SYS_fchown
    print_syscall "fchown".data 3 [.fd a.a0, .dec a.a1, .dec a.a2] rk result
  else if nr = 94 then  -- SYS_lchown
    print_syscall "lchown".data 3 [.str (memArg mem a.a0), .dec a.a1, .dec a.a2] rk result
  else if nr = 95 then  -- SYS_umask
    print_syscall "umask".data 1 [.octMode (toULong a.a0)] rk result
  else if nr = 133 then  -- SYS_mknod
    print_syscall "mknod".data 3
      [.str (memArg mem a.a0), .octMode (toULong a.a1), .dec a.a2] rk result
  else if nr = 137 then  -- SYS_statfs
    print_syscall "statfs".data 2 [.str (memArg mem a.a0), .hex (toULong a.a1)] rk result
  else if nr = 138 then  -- SYS_fstatfs
    print_syscall "fstatfs".data 2 [.fd a.a0, .hex (toULong a.a1)] rk result
  else if nr = 161 then  -- SYS_chroot
    print_syscall "chroot".data 1 [.str (memArg mem a.a0)] rk result
  else if nr = 187 then  -- SYS_readahead
    print_syscall "readahead".data 3 [.fd a.a0, .dec a.a1, .dec a.a2] rk result
  else if nr = 217 then  -- SYS_getdents64
    print_syscall "getdents64".data 3 [.fd a.a0, .hex (toULong a.a1), .dec a.a2] rk result
  else if nr = 221 then  -- SYS_fadvise64
    print_syscall "fadvise64".data 4 [.fd a.a0, .dec a.a1, .dec a.a2, .dec a.a3] rk result
  else if nr = 257 then  -- SYS_openat
    print_syscall "openat".data 4
      [.atfd a.a0, .str (memArg mem a.a1), .openFlags a.a2, .octMode (toULong a.a3)] rk result
  else if nr = 258 then  -- SYS_mkdirat
    print_syscall "mkdirat".data 4 [.atfd a.a0, .str (memArg mem a.a1), .openFlags a.a2] rk result
  else if nr = 259 then  -- SYS_mknodat
    print_syscall "mknodat".data 4
      [.atfd a.a0, .str (memArg mem a.a1), .octMode (toULong a.a2), .dec a.a3] rk result
  else if nr = 260 then  -- SYS_fchownat
    print_syscall "fchownat".data 5
      [.atfd a.a0, .str (memArg mem a.a1), .dec a.a2, .dec a.a3, .dec a.a4] rk result
  else if nr = 261 then  -- SYS_futimesat
    print_syscall "futimesat".data 3
      [.atfd a.a0, .str (memArg mem a.a1), .hex (toULong a.a2)] rk result
  else if nr = 262 then  -- SYS_newfstatat
    print_syscall "newfstatat".data 4
      [.atfd a.a0, .str (memArg mem a.a1), .hex (toULong a.a2), .dec a.a3] rk result
  else if nr = 263 then  -- SYS_unlinkat
    print_syscall "unlinkat".data 3 [.atfd a.a0, .str (memArg mem a.a1), .dec a.a2] rk result
  else if nr = 264 then  -- SYS_renameat
    print_syscall "renameat".data 4
      [.atfd a.a0, .str (memArg mem a.a1), .atfd a.a2, .str (memArg mem a.a3)] rk result
  else if nr = 265 then  -- SYS_linkat
    print_syscall "linkat".data 5
      [.atfd a.a0, .str (memArg mem a.a1), .atfd a.a2, .str (memArg mem a.a3), .dec a.a4] rk result
  else if nr = 266 then  -- SYS_symlinkat
    print_syscall "symlinkat".data 3
      [.str (memArg mem a.a0), .atfd a.a1, .str (memArg mem a.a2)] rk result
  else if nr = 267 then  -- SYS_readlinkat
    print_syscall "readlinkat".data 4
      [.atfd a.a0, .str (memArg mem a.a1), .str (memArg mem a.a2), .dec a.a3] rk result
  else if nr = 268 then  -- SYS_fchmodat
    print_syscall "fchmodat".data 3
      [.atfd a.a0, .str (memArg mem a.a1), .octMode (toULong a.a2)] rk result
  else if nr = 269 then  -- SYS_faccessat
    print_syscall "faccessat".data 3
      [.atfd a.a0, .str (memArg mem a.a1), .octMode (toULong a.a2)] rk result
  else if nr = 275 then  -- SYS_splice
    print_syscall "splice".data 6
      [.fd a.a0, .hex (toULong a.a1), .fd a.a2, .hex (toULong a.a3), .dec a.a4, .dec a.a5] rk result
  else if nr = 276 then  -- SYS_tee
    print_syscall "tee".data 4 [.fd a.a0, .fd a.a1, .dec a.a2, .dec a.a3] rk result
  else if nr = 277 then  -- SYS_sync_file_range
    print_syscall "sync_file_range".data 4 [.fd a.a0, .dec a.a1, .dec a.a2, .dec a.a3] rk result
  else if nr = 280 then  -- SYS_utimensat
    print_syscall "utimensat".data 4
      [.fd a.a0, .str (memArg mem a.a1), .hex (toULong a.a2), .dec a.a3] rk result
  else if nr = 285 then  -- SYS_fallocate
    print_syscall "fallocate".data 4 [.fd a.a0, .dec a.a1, .dec a.a2, .dec a.a3] rk result
  else if nr = 292 then  -- SYS_dup3
    print_syscall "dup3".data 3 [.fd a.a0, .fd a.a1, .fd a.a2] rk result
  else if nr = 295 then  -- SYS_preadv
    print_syscall "preadv".data 4 [.fd a.a0, .hex (toULong a.a1), .dec a.a2, .dec a.a3] rk result
  else if nr = 296 then  -- SYS_pwritev
    print_syscall "pwritev".data 3 [.fd a.a0, .hex (toULong a.a1), .dec a.a2] rk result
  else if nr = 303 then  -- SYS_name_to_handle_at
    print_syscall "name_to_handle_at".data 5
      [.atfd a.a0, .str (memArg mem a.a1), .hex (toULong a.a2), .hex (toULong a.a3), .dec a.a4] rk result
  else if nr = 304 then  -- SYS_open_by_handle_at
    print_syscall "open_by_handle_at".data 3 [.fd a.a0, .hex (toULong a.a1), .dec a.a2] rk result
  else if nr = 306 then  -- SYS_syncfs
    print_syscall "syncfs".data 1 [.fd a.a0] rk result
  else if nr = 316 then  -- SYS_renameat2
    print_syscall "renameat2".data 5
      [.atfd a.a0, .str (memArg mem a.a1), .atfd a.a2, .str (memArg mem a.a3), .dec a.a4] rk result
  else if nr = 59 then  -- SYS_execve
    print_syscall "execve".data 3
      [.str (memArg mem a.a0), .hex (toULong a.a1), .hex (toULong a.a2)] rk result
  else if nr = 322 then  -- SYS_execveat
    print_syscall "execveat".data 4
      [.atfd a.a0, .str (memArg mem a.a1), .hex (toULong a.a2), .hex (toULong a.a3)] rk result
  else if nr = 231 then  -- SYS_exit_group
    some ("exit_group(".data ++ print_signed_dec (toInt32 a.a0) ++ ")".data)
  else if nr = 60 then  -- SYS_exit
    some ("exit(".data ++ print_signed_dec (toInt32 a.a0) ++ ")".data)
  else if nr = 56 then  -- SYS_clone
    print_syscall "clone".data 5
      [.cloneFlags a.a0, .hex (toULong a.a1), .hex (toULong a.a2), .hex (toULong a.a3),
       .hex (toULong a.a4)] rk result
  else if nr = 57 then  -- SYS_fork
    print_syscall "fork".data 0 [] rk result
  else if nr = 58 then  -- SYS_vfork
    some "vfork()".data
  else if nr = 61 then  -- SYS_wait4
    print_syscall "wait4".data 4
      [.dec a.a0, .hex (toULong a.a1), .hex (toULong a.a2), .hex (toULong a.a3)] rk result
  else if nr = 23 then  -- SYS_select
    print_syscall "select".data 5
      [.dec a.a0, .pointer a.a1, .pointer a.a2, .pointer a.a3, .pointer a.a4] rk result
  else if nr = 270 then  -- SYS_pselect6
    print_syscall "pselect6".data 6
      [.dec a.a0, .pointer a.a1, .pointer a.a2, .pointer a.a3, .pointer a.a4, .pointer a.a5] rk result
  else if nr = 7 then  -- SYS_poll
    print_syscall "poll".data 3 [.pointer a.a0, .dec a.a1, .dec a.a2] rk result
  else if nr = 271 then  -- SYS_ppoll
    print_syscall "ppoll".data 4
      [.pointer a.a0, .dec a.a1, .pointer a.a2, .pointer a.a3] rk result
  else if nr = 232 then  -- SYS_epoll_wait
    print_syscall "epoll_wait".data 4
      [.dec a.a0, .hex (toULong a.a1), .dec a.a2, .dec a.a3] rk result
  else if nr = 281 then  -- SYS_epoll_pwait
    print_syscall "epoll_pwait".data 5
      [.dec a.a0, .hex (toULong a.a1), .dec a.a2, .dec a.a3, .hex (toULong a.a4)] rk result
  else if nr = 233 then  -- SYS_epoll_ctl
    print_syscall "epoll_ctl".data 4
      [.dec a.a0, .dec a.a1, .dec a.a2, .hex (toULong a.a3)] rk result
  else if nr = 13 then  -- SYS_rt_sigaction
    print_syscall "rt_sigaction".data 3
      [.dec a.a0, .hex (toULong a.a1), .hex (toULong a.a2)] rk result
  else if nr = 14 then  -- SYS_rt_sigprocmask
    print_syscall "rt_sigprocmask".data 3
      [.dec a.a0, .hex (toULong a.a1), .hex (toULong a.a2)] rk result
  else if nr = 15 then  -- SYS_rt_sigreturn
    print_syscall "rt_sigreturn".data 1 [.hex (toULong a.a0)] rk result
  else if nr = 102 then  -- SYS_getuid
    print_syscall "getuid".data 0 [] rk result
  else if nr = 107 then  -- SYS_geteuid
    print_syscall "geteuid".data 0 [] rk result
  else if nr = 118 then  -- SYS_getresuid
    print_syscall "getresuid".data 3
      [.hex (toULong a.a0), .hex (toULong a.a1), .hex (toULong a.a2)] rk result
  else if nr = 105 then  -- SYS_setuid
    print_syscall "setuid".data 1 [.dec a.a0] rk result
  else if nr = 113 then  -- SYS_setreuid
    print_syscall "setreuid".data 2 [.dec a.a0, .dec a.a1] rk result
  else if nr = 117 then  -- SYS_setresuid
    print_syscall "setresuid".data 3 [.dec a.a0, .dec a.a1, .dec a.a2] rk result
  else if nr = 122 then  -- SYS_setfsuid
    print_syscall "setfsuid".data 1 [.dec a.a0] rk result
  else if nr = 104 then  -- SYS_getgid
    print_syscall "getgid".data 0 [] rk result
  else if nr = 108 then  -- SYS_getegid
    print_syscall "getegid".data 0 [] rk result
  else if nr = 120 then  -- SYS_getresgid
    print_syscall "getresgid".data 3
      [.hex (toULong a.a0), .hex (toULong a.a1), .hex (toULong a.a2)] rk result
  else if nr = 106 then  -- SYS_setgid
    print_syscall "setgid".data 1 [.dec a.a0] rk result
  else if nr = 114 then  -- SYS_setregid
    print_syscall "setregid".data 2 [.dec a.a0, .dec a.a1] rk result
  else if nr = 119 then  -- SYS_setresgid
    print_syscall "setresgid".data 3 [.dec a.a0, .dec a.a1, .dec a.a2] rk result
  else if nr = 123 then  -- SYS_setfsgid
    print_syscall "setfsgid".data 1 [.dec a.a0] rk result
  else if nr = 115 then  -- SYS_getgroups
    print_syscall "getgroups".data 2 [.dec a.a0, .hex (toULong a.a1)] rk result
  else if nr = 116 then  -- SYS_setgroups
    print_syscall "setgroups".data 2 [.dec a.a0, .hex (toULong a.a1)] rk result
  else if nr = 112 then  -- SYS_setsid
    print_syscall "setsid".data 0 [] rk result
  else if nr = 124 then  -- SYS_getsid
    print_syscall "getsid".data 1 [.dec a.a0] rk result
  else if nr = 39 then  -- SYS_getpid
    print_syscall "getpid".data 0 [] rk result
  else if nr = 110 then  -- SYS_getppid
    print_syscall "getppid".data 0 [] rk result
  else if nr = 186 then  -- SYS_gettid
    print_syscall "gettid".data 0 [] rk result
  else if nr = 63 then  -- SYS_uname
    print_syscall "uname".data 1 [.hex (toULong a.a0)] rk result
  else if nr = 202 then  -- SYS_futex
    print_syscall "futex".data 6
      [.hex (toULong a.a0), .dec a.a1, .dec a.a2, .hex (toULong a.a3), .hex (toULong a.a4),
       .dec a.a5] rk result
  else if nr = 274 then  -- SYS_get_robust_list
    print_syscall "get_robust_list".data 3
      [.dec a.a0, .hex (toULong a.a1), .hex (toULong a.a2)] rk result
  else if nr = 273 then  -- SYS_set_robust_list
    print_syscall "set_robust_list".data 2 [.hex (toULong a.a0), .dec a.a1] rk result
  else if nr = 22 then  -- SYS_pipe
    print_syscall "pipe".data 1 [.hex (toULong a.a0)] rk result
  else if nr = 293 then  -- SYS_pipe2
    print_syscall "pipe2".data 2 [.hex (toULong a.a0), .hex (toULong a.a1)] rk result
  else if nr = 41 then  -- SYS_socket
    print_syscall "socket".data 3 [.dec a.a0, .dec a.a1, .dec a.a2] rk result
  else if nr = 42 then  -- SYS_connect
    print_syscall "connect".data 3 [.fd a.a0, .hex (toULong a.a1), .dec a.a2] rk result
  else if nr = 62 then  -- SYS_kill
    print_syscall "kill".data 2 [.dec a.a0, .dec a.a1] rk result
  else if nr = 200 then  -- SYS_tkill
    print_syscall "tkill".data 2 [.dec a.a0, .dec a.a1] rk result
  else if nr = 234 then  -- SYS_tgkill
    print_syscall "tgkill".data 3 [.dec a.a0, .dec a.a1, .dec a.a2] rk result
  else if nr = 99 then  -- SYS_sysinfo
    print_syscall "sysinfo".data 1 [.hex (toULong a.a0)] rk result
  else if nr = 191 then  -- SYS_getxattr
    print_syscall "getxattr".data 4
      [.str (memArg mem a.a0), .str (memArg mem a.a1), .buf (toULong a.a3) (memArg mem a.a2),
       .dec a.a3] rk result
  else if nr = 192 then  -- SYS_lgetxattr
    print_syscall "lgetxattr".data 4
      [.str (memArg mem a.a0), .str (memArg mem a.a1), .buf (toULong a.a3) (memArg mem a.a2),
       .dec a.a3] rk result
  else if nr = 193 then  -- SYS_fgetxattr
    print_syscall "fgetxattr".data 4
      [.fd a.a0, .str (memArg mem a.a1), .buf (toULong a.a3) (memArg mem a.a2), .dec a.a3] rk result
  else if nr = 160 then  -- SYS_setrlimit
    print_syscall "setrlimit".data 2 [.dec a.a0, .hex (toULong a.a1)] rk result
  else if nr = 97 then  -- SYS_getrlimit
    print_syscall "getrlimit".data 2 [.dec a.a0, .hex (toULong a.a1)] rk result
  else if nr = 98 then  -- SYS_getrusage
    print_syscall "getrusage".data 2 [.dec a.a0, .hex (toULong a.a1)] rk result
  else if nr = 49 then  -- SYS_bind
    print_syscall "bind".data 3 [.fd a.a0, .hex (toULong a.a1), .dec a.a2] rk result
  else if nr = 52 then  -- SYS_getpeername
    print_syscall "getpeername".data 3
      [.dec a.a0, .hex (toULong a.a1), .hex (toULong a.a2)] rk result
  else if nr = 51 then  -- SYS_getsockname
    print_syscall "getsockname".data 3
      [.dec a.a0, .hex (toULong a.a1), .hex (toULong a.a2)] rk result
  else if nr = 45 then  -- SYS_recvfrom
    print_syscall "recvfrom".data 6
      [.dec a.a0, .hex (toULong a.a1), .dec a.a2, .dec a.a3, .hex (toULong a.a4),
       .hex (toULong a.a5)] rk result
  else if nr = 47 then  -- SYS_recvmsg
    print_syscall "recvmsg".data 3 [.dec a.a0, .hex (toULong a.a1), .dec a.a2] rk result
  else if nr = 44 then  -- SYS_sendto
    print_syscall "sendto".data 6
      [.dec a.a0, .hex (toULong a.a1), .dec a.a2, .dec a.a3, .hex (toULong a.a4),
       .hex (toULong a.a5)] rk result
  else if nr = 46 then  -- SYS_sendmsg
    print_syscall "sendmsg".data 3 [.dec a.a0, .hex (toULong a.a1), .dec a.a2] rk result
  else if nr = 307 then  -- SYS_sendmmsg
    print_syscall "sendmmsg".data 4
      [.dec a.a0, .hex (toULong a.a1), .dec a.a2, .dec a.a3] rk result
  else if nr = 48 then  -- SYS_shutdown
    print_syscall "shutdown".data 2 [.dec a.a0, .dec a.a1] rk result
  else if nr = 319 then  -- SYS_memfd_create
    print_syscall "memfd_create".data 2 [.str (memArg mem a.a0), .dec a.a1] rk result
  else if nr = 28 then  -- SYS_madvise
    print_syscall "madvise".data 3 [.hex (toULong a.a0), .dec a.a1, .dec a.a2] rk result
  else if nr = 29 then  -- SYS_shmget
    print_syscall "shmget".data 3 [.dec a.a0, .dec a.a1, .dec a.a2] rk result
  else if nr = 30 then  -- SYS_shmat
    print_syscall "shmat".data 3 [.dec a.a0, .hex (toULong a.a1), .dec a.a2] rk result
  else if nr = 31 then  -- SYS_shmctl
    print_syscall "shmctl".data 3 [.dec a.a0, .dec a.a1, .hex (toULong a.a2)] rk result
  else if nr = 67 then  -- SYS_shmdt
    print_syscall "shmdt".data 1 [.hex (toULong a.a0)] rk result
  else if nr = 54 then  -- SYS_setsockopt
    print_syscall "setsockopt".data 5
      [.dec a.a0, .dec a.a1, .dec a.a2, .hex (toULong a.a3), .dec a.a4] rk result
  else if nr = 55 then  -- SYS_getsockopt
    print_syscall "getsockopt".data 5
      [.dec a.a0, .dec a.a1, .dec a.a2, .hex (toULong a.a3), .hex (toULong a.a4)] rk result
  else if nr = 140 then  -- SYS_getpriority
    print_syscall "getpriority".data 2 [.dec a.a0, .dec a.a1] rk result
  else if nr = 141 then  -- SYS_setpriority
    print_syscall "setpriority".data 3 [.dec a.a0, .dec a.a1, .dec a.a2] rk result
  else if nr = 157 then  -- SYS_prctl
    print_syscall "prctl".data 5 [.dec a.a0, .dec a.a1, .dec a.a2, .dec a.a3, .dec a.a4] rk result
  else if nr = 179 then  -- SYS_quotactl
    print_syscall "quotactl".data 4
      [.dec a.a0, .hex (toULong a.a1), .dec a.a2, .dec a.a3] rk result
  else if nr = 229 then  -- SYS_clock_getres
    print_syscall "clock_getres".data 2 [.dec a.a0, .hex (toULong a.a1)] rk result
  else if nr = 228 then  -- SYS_clock_gettime
    print_syscall "clock_gettime".data 2 [.dec a.a0, .hex (toULong a.a1)] rk result
  else if nr = 227 then  -- SYS_clock_settime
    print_syscall "clock_settime".data 2 [.dec a.a0, .hex (toULong a.a1)] rk result
  else if nr = 230 then  -- SYS_clock_nanosleep
    print_syscall "clock_nanosleep".data 4
      [.dec a.a0, .dec a.a1, .hex (toULong a.a2), .hex (toULong a.a3)] rk result
  else if nr = 290 then  -- SYS_eventfd2
    print_syscall "eventfd2".data 2 [.dec a.a0, .dec a.a1] rk result
  else  -- no dispatch-table entry: generic fallback
    print_syscall "syscall".data 7
      [.dec nr, .hex (toULong a.a0), .hex (toULong a.a1), .hex (toULong a.a2),
       .hex (toULong a.a3), .hex (toULong a.a4), .hex (toULong a.a5)] rk result

/-- The syscall numbers having a dispatch-table entry, in source order. -/
def knownNrs : List Int :=
  [0, 1, 2, 3, 4, 5, 6, 8, 9, 10, 11, 12, 16, 17, 18, 19, 20, 21, 25, 26,
   32, 33, 72, 73, 74, 75, 76, 77, 78, 79, 80, 81, 82, 83, 84, 85, 86, 87,
   88, 89, 90, 91, 92, 93, 94, 95, 133, 137, 138, 161, 187, 217, 221, 257,
   258, 259, 260, 261, 262, 263, 264, 265, 266, 267, 268, 269, 275, 276,
   277, 280, 285, 292, 295, 296, 303, 304, 306, 316, 59, 322, 231, 60, 56,
   57, 58, 61, 23, 270, 7, 271, 232, 281, 233, 13, 14, 15, 102, 107, 118,
   105, 113, 117, 122, 104, 108, 120, 106, 114, 119, 123, 115, 116, 112,
   124, 39, 110, 186, 63, 202, 274, 273, 22, 293, 41, 42, 62, 200, 234, 99,
   191, 192, 193, 160, 97, 98, 49, 52, 51, 45, 47, 44, 46, 307, 48, 319, 28,
   29, 30, 31, 67, 54, 55, 140, 141, 157, 179, 229, 228, 227, 230, 290]

/-- The line prefix `sprintf(buf, "%s 0x%lx -- ", libpath, offset)`. -/
def logPrefix (libpath : List Char) (offset : Nat) : List Char :=
  libpath ++ " 0x".data ++ print_number offset 16 1 ++ " -- ".data

/-- The complete log line built by `intercept_log_syscall`: prefix,
dispatched body, and the trailing newline. -/
def interceptRender (libpath : List Char) (offset : Nat) (nr : Int)
    (a : Args) (mem : Mem) (rk : LogResult) (result : Int) :
    Option (List Char) :=
  (syscallBody nr a mem rk result).map
    (fun b => logPrefix libpath offset ++ b ++ ['\n'])

/-- `intercept_log_syscall`: returns immediately when no log is open
(`log_fd < 0`); otherwise renders the line and hands it to
`intercept_log`. -/
def intercept_log_syscall (st : SinkState) (libpath : List Char)
    (nr : Int) (a : Args) (offset : Nat) (mem : Mem) (rk : LogResult)
    (result : Int) : List SinkEvent :=
  if st.fd < 0 then []
  else
    match interceptRender libpath offset nr a mem rk result with
    | some line => intercept_log st line
    | none => []

/-! ## Reference functions used to state the properties

Parsing back a decimal rendering (for the round-trip property of
`print_signed_dec`), and two standalone descriptions of the flag-set
decoder used to compare the code against the specification text. -/

/-- Value of a decimal digit character. -/
def digVal (c : Char) : Nat := c.toNat - 48

/-- Fold a decimal digit string onto an accumulator. -/
def valFrom (a : Nat) (l : List Char) : Nat :=
  l.foldl (fun acc c => 10 * acc + digVal c) a

/-- Parse a string of decimal digits as a natural number. -/
def parseNat (l : List Char) : Nat := valFrom 0 l

/-- Parse an optional leading `-` followed by decimal digits. -/
def parseDecInt (l : List Char) : Int :=
  match l with
  | [] => 0
  | c :: rest =>
    if c = '-' then -(parseNat rest : Int) else (parseNat (c :: rest) : Int)

/-- Modelled from the spec (claim C4's reading): the names selected from
the table when an entry is taken exactly if its bits are *fully
contained* in the remaining mask, together with the remaining mask. -/
def selContained (flags : Nat) : List FlagDesc → List (List Char) × Nat
  | [] => ([], flags)
  | d :: rest =>
    if land64 flags d.flag = d.flag then
      let r := selContained (land64 flags (comp64 d.flag)) rest
      (d.printable_name :: r.1, r.2)
    else selContained flags rest

/-- The names selected from the table when an entry is taken exactly if
its bits *intersect* the remaining mask (share at least one bit), the
entry's bits then being cleared; together with the remaining mask. -/
def selAny (flags : Nat) : List FlagDesc → List (List Char) × Nat
  | [] => ([], flags)
  | d :: rest =>
    if land64 flags d.flag ≠ 0 then
      let r := selAny (land64 flags (comp64 d.flag)) rest
      (d.printable_name :: r.1, r.2)
    else selAny flags rest

/-- Join items with `" | "`, no leading separator. -/
def joinBarSep : List (List Char) → List Char
  | [] => []
  | [x] => x
  | x :: xs => x ++ " | ".data ++ joinBarSep xs

/-- One decode of a mask against a table, described as in the spec:
the selected names, followed by one `0x`-prefixed hex literal if bits
remain, joined by `" | "`; the literal `0` when nothing was appended
and the output is at the start of the flag list.  The `sel` parameter
is the selection rule. -/
def flagDecodeWith (sel : Nat → List FlagDesc → List (List Char) × Nat)
    (started : Bool) (flags : Nat) (desc : List FlagDesc) : List Char :=
  let r := sel flags desc
  let items :=
    r.1 ++ (if r.2 ≠ 0 then ['0' :: 'x' :: print_number r.2 16 1] else [])
  if started then (items.map (fun i => " | ".data ++ i)).flatten
  else if items = [] then "0".data
  else joinBarSep items

/-- Modelled from the spec: claim C4's decoder, full-containment rule. -/
def flagDecodeContained : Bool → Nat → List FlagDesc → List Char :=
  flagDecodeWith selContained

/-- Render a name list the way the appending loop does: the first name
is preceded by `" | "` exactly when the buffer was already started,
every later name always. -/
def emitNames (started : Bool) : List (List Char) → List Char
  | [] => []
  | n :: t => print_flag started n ++ emitNames true t

/-- The decoder as amended: any-overlap rule. -/
def flagDecodeAny : Bool → Nat → List FlagDesc → List Char :=
  flagDecodeWith selAny

/-- A sink state is CLOSED (`fd = -1`, the initializer and the value
stored by close) or OPEN (a non-negative fd). -/
def SinkValid (st : SinkState) : Prop := st.fd = -1 ∨ 0 ≤ st.fd

/-- A rendered body that has the well-formed shape produced by
`print_syscall`: some name, some argument list, and the mandatory
`(args...) = result` structure with the result segment for the given
marker and result. -/
def IsPrintShape (o : Option (List Char)) (rk : LogResult) (result : Int) :
    Prop :=
  ∃ name args, o = some (lineBody name args rk result)

/-- A small concrete memory used by the concrete evaluations below:
address 1000 holds `"abc"`, address 2000 holds `"x"`. -/
def memDemo : Mem := fun p =>
  if p = 1000 then [97, 98, 99]
  else if p = 2000 then [120]
  else if p = 3000 then [47, 116, 109, 112, 47, 120]
  else if p = 4000 then [97, 98, 99, 100, 101]
  else []

end InterceptUtil

namespace InterceptUtil

/-! ## Sanity checks: concrete evaluations of the embedding against the
behaviors documented in the source and the spec's scenario table. -/

example : print_signed_dec 0 = "0".data := by decide
example : print_signed_dec (-42) = "-42".data := by decide
example : print_number 255 16 2 = "ff".data := by decide
example : print_number 0 16 1 = "0".data := by decide
example : print_pointer 0 = "(null)".data := by decide
example : print_atfd (-100) = "AT_FDCWD".data := by decide
example : print_flag_set false 0 open_flags = "0".data := by decide
example : print_open_flags 0 = "O_RDONLY".data := by decide
example : print_open_flags 66 = "O_RDWR | O_CREAT".data := by decide
example : print_open_flags (64 + 2 + 8388608) =
    "O_RDWR | O_CREAT | 0x800000".data := by decide
example : xprint_escape 128 (some [97, 98, 99]) true 0 =
    "\"abc\"".data := by decide
example : xprint_escape 128 none true 0 = "(null)".data := by decide
example : xprint_escape 128 (some [10, 0, 255]) false 3 =
    "\"\\n\\0\\xff\"".data := by decide
example : xprint_escape 8 (some [1, 1]) false 2 =
    "\"\\x01...\"".data := by decide
example : print_fcntl_cmd 1030 = "1030 (F_DUPFD_CLOEXEC)".data := by decide

example : syscallBody 0 ⟨7, 4000, 10, 0, 0, 0⟩ memDemo .known 5 =
    some "read(7, \"abcde\", 10) = 5".data := by decide

example : syscallBody 8 ⟨0, 0, 2, 0, 0, 0⟩ memDemo .known 1024 =
    some "lseek(0, 0, 2) = 1024".data := by decide

example : syscallBody 2 ⟨3000, 64 + 2, 0o644, 0, 0, 0⟩ memDemo .known 3 =
    some "open(\"/tmp/x\", O_RDWR | O_CREAT, 0644) = 3".data := by decide

example : syscallBody 9999 ⟨1, 2, 0, 0, 0, 0⟩ memDemo .unknown 0 =
    some "syscall(9999, 0x1, 0x2, 0x0, 0x0, 0x0, 0x0) = ?".data := by decide

example : syscallBody 258 ⟨-100, 1000, 0o755, 0, 0, 0⟩ memDemo .known 0 =
    none := by decide

example : interceptRender "libc".data 0xdaea2 5 ⟨1, 0x7ffd115206f0, 0, 0, 0, 0⟩
    memDemo .known 0 =
    some "libc 0xdaea2 -- fstat(1, 0x7ffd115206f0) = 0\n".data := by decide

/-! ## Round-trip correctness of the decimal encoders -/

lemma valFrom_nil (a : Nat) : valFrom a [] = a := rfl

lemma valFrom_cons (a : Nat) (c : Char) (l : List Char) :
    valFrom a (c :: l) = valFrom (10 * a + digVal c) l := rfl

lemma digitChar_val : ∀ k, k < 10 → digVal (digitChar k) = k := by decide

lemma digitChar_ne_dash : ∀ k, k < 10 → digitChar k ≠ '-' := by decide

/-- The decimal digit loop of `print_number` is value-correct whenever
the supplied fuel dominates `n + width` (the iteration count never
exceeds `max (digits n) width ≤ n + width + 1`, and one digit is free). -/
lemma printNumLoop_val10 (fuel : Nat) : ∀ (n width : Nat) (acc : List Char),
    n + width ≤ fuel →
    valFrom 0 (printNumLoop 10 fuel n width acc) = valFrom n acc := by
  induction fuel with
  | zero =>
    intro n width acc h
    have hn : n = 0 := by omega
    subst hn
    simp only [printNumLoop, valFrom_cons]
    rw [digitChar_val (0 % 10) (by omega)]
  | succ f ih =>
    intro n width acc h
    by_cases hc : 0 < n / 10 ∨ 0 < width - 1
    · simp only [printNumLoop, if_pos hc]
      rw [ih (n / 10) (width - 1) _ (by omega), valFrom_cons,
        digitChar_val (n % 10) (by omega)]
      congr 1
      omega
    · simp only [printNumLoop, if_neg hc]
      rw [valFrom_cons, digitChar_val (n % 10) (by omega)]
      congr 1
      omega

/-- The loop always emits a digit character first. -/
lemma printNumLoop_head10 (fuel : Nat) : ∀ (n width : Nat) (acc : List Char),
    ∃ k t, k < 10 ∧ printNumLoop 10 fuel n width acc = digitChar k :: t := by
  induction fuel with
  | zero => intro n width acc; exact ⟨n % 10, acc, by omega, rfl⟩
  | succ f ih =>
    intro n width acc
    by_cases hc : 0 < n / 10 ∨ 0 < width - 1
    · simpa only [printNumLoop, if_pos hc] using
        ih (n / 10) (width - 1) (digitChar (n % 10) :: acc)
    · exact ⟨n % 10, acc, by omega, by simp only [printNumLoop, if_neg hc]⟩

lemma print_number_ten_one (n : Nat) :
    print_number n 10 1 = printNumLoop 10 (n + 1) n 1 [] := by
  simp [print_number]

lemma parseNat_print_number (n : Nat) : parseNat (print_number n 10 1) = n := by
  rw [parseNat, print_number_ten_one, printNumLoop_val10 (n + 1) n 1 [] (by omega)]
  rfl

lemma print_number_head (n : Nat) :
    ∃ k t, k < 10 ∧ print_number n 10 1 = digitChar k :: t := by
  rw [print_number_ten_one]
  exact printNumLoop_head10 (n + 1) n 1 []

lemma parseDecInt_dash (l : List Char) :
    parseDecInt ('-' :: l) = -(parseNat l : Int) := by
  simp [parseDecInt]

lemma parseDecInt_cons {c : Char} (h : c ≠ '-') (l : List Char) :
    parseDecInt (c :: l) = (parseNat (c :: l) : Int) := by
  simp [parseDecInt, h]

/-- C8: For every signed machine-word value `v`, including the minimum
representable value `-2^63`, `print_signed_dec v` produces a decimal
string that parses back to `v`: for negative `v` it emits `-` followed
by the unsigned magnitude computed by unsigned negation (avoiding
signed overflow), and for non-negative `v` the unsigned decimal
rendering with minimum width 1. -/
theorem c8_signed_dec_roundtrip (n : Int) (h1 : -(2 ^ 63) ≤ n)
    (h2 : n < 2 ^ 63) : parseDecInt (print_signed_dec n) = n := by
  have e64 : (2 : Int) ^ 64 = 18446744073709551616 := by norm_num
  have e64n : (2 : Nat) ^ 64 = 18446744073709551616 := by norm_num
  have e63 : (2 : Int) ^ 63 = 9223372036854775808 := by norm_num
  rw [e63] at h2
  rw [show -((2 : Int) ^ 63) = -9223372036854775808 by norm_num] at h1
  by_cases hn : 0 ≤ n
  · have hult : toULong n = n.toNat := by
      unfold toULong; rw [e64]; omega
    obtain ⟨k, t, hk, heq⟩ := print_number_head n.toNat
    rw [print_signed_dec, if_pos hn, hult, heq,
      parseDecInt_cons (digitChar_ne_dash k hk), ← heq, parseNat_print_number]
    omega
  · have hult : negULong (toULong n) = (-n).toNat := by
      unfold negULong toULong; rw [e64, e64n]; omega
    rw [print_signed_dec, if_neg hn, hult, parseDecInt_dash,
      parseNat_print_number]
    omega

/-- Witness for C8 at the minimum representable 64-bit value. -/
theorem c8_signed_dec_roundtrip_witness :
    -(2 ^ 63) ≤ (-(2 ^ 63) : Int) ∧ (-(2 ^ 63) : Int) < 2 ^ 63 ∧
      parseDecInt (print_signed_dec (-(2 ^ 63))) = -(2 ^ 63) :=
  ⟨le_refl _, by norm_num,
    c8_signed_dec_roundtrip (-(2 ^ 63)) (le_refl _) (by norm_num)⟩

/-! ## The escaped-buffer encoder and the declared capacity -/

/-- C1: the claim states that `xprint_escape` writes at most `dst_size`
bytes into the destination for every source and every `dst_size ≥ 6`.
The code contradicts this (and its own comment, `No more than dst_size
characters are written.`): with `dst_size = 8` the reserved boundary is
offset 3, so the loop may still start an iteration at offset 2 and emit
a four-byte `\x01` escape, reaching offset 6; the ellipsis, closing
quote and NUL then extend the written region to 10 bytes — two visible
characters and the terminator beyond the declared capacity.  The output
does end with `...` and the closing quote, as claimed. -/
theorem c1_escape_capacity_overrun :
    xprintEscapeBytesWritten 8 (some [1, 1]) false 2 = 10 ∧
      xprint_escape 8 (some [1, 1]) false 2 = "\"\\x01...\"".data := by
  constructor
  · decide
  · decide

lemma escByte_length : ∀ b : Byte, (escByte b).length ≤ 4 := by decide

lemma escLoopZ_length (bound : Nat) :
    ∀ (s : List Byte) (p : Nat), (escLoopZ bound p s).1.length ≤ bound + 3 - p := by
  intro s
  induction s with
  | nil => intro p; simp [escLoopZ]
  | cons b rest ih =>
    intro p
    simp only [escLoopZ]
    split_ifs with h0 hp
    · simp
    · show (escByte b ++
          (escLoopZ bound (p + (escByte b).length) rest).1).length ≤
          bound + 3 - p
      rw [List.length_append]
      have hb := escByte_length b
      have ht := ih (p + (escByte b).length)
      omega
    · simp

lemma escLoopC_length (bound : Nat) :
    ∀ (sz : Nat) (src : List Byte) (p : Nat),
      (escLoopC bound p src sz).1.length ≤ bound + 3 - p := by
  intro sz
  induction sz with
  | zero => intro src p; simp [escLoopC]
  | succ m ih =>
    intro src p
    simp only [escLoopC]
    split_ifs with hp
    · show (escByte (src.headD 0) ++
          (escLoopC bound (p + (escByte (src.headD 0)).length) src.tail m).1).length ≤
          bound + 3 - p
      rw [List.length_append]
      have hb := escByte_length (src.headD 0)
      have ht := ih src.tail (p + (escByte (src.headD 0)).length)
      omega
    · simp

/-- At the fixed capacity 0x80 used by the generic printer, the encoder
output is at most 130 characters (123-byte body boundary, a final
escape of up to 4 bytes entered at offset 122, ellipsis, quotes). -/
lemma xprint_escape_len128 (src : Option (List Byte)) (zt : Bool) (ss : Nat) :
    (xprint_escape 128 src zt ss).length ≤ 130 := by
  have h3 : ("...".data).length = 3 := rfl
  have h4 : (['"'] : List Char).length = 1 := rfl
  have h0 : (([] : List Char)).length = 0 := rfl
  rcases src with _ | s
  · show ("(null)".data).length ≤ 130
    decide
  · rcases zt with _ | _
    · show ('"' :: (escLoopC 123 1 s ss).1
          ++ (if (escLoopC 123 1 s ss).2 then "...".data else [])
          ++ ['"']).length ≤ 130
      have h1 := escLoopC_length 123 ss s 1
      split_ifs <;>
        simp only [List.length_cons, List.length_append, h3, h4, h0] <;> omega
    · show ('"' :: (escLoopZ 123 1 s).1
          ++ (if (escLoopZ 123 1 s).2 then "...".data else [])
          ++ ['"']).length ≤ 130
      have h1 := escLoopZ_length 123 s 1
      split_ifs <;>
        simp only [List.length_cons, List.length_append, h3, h4, h0] <;> omega

/-- C9 (amended): for every `F_STR` and `F_BUF` argument the generic
printer invokes the escaped-buffer encoder with a fixed destination
capacity of 0x80 = 128 bytes; consequently each rendered string or
buffer argument occupies at most 130 bytes of the output line — not
128, because the encoder's boundary check lets a final multi-byte
escape together with the ellipsis and closing quote exceed the declared
capacity by two visible characters. -/
theorem c9_arg_truncation_bound (b : Option (List Byte)) (size : Nat)
    (data : Option (List Byte)) :
    printArg (.str b) = xprint_escape 0x80 b true 0 ∧
    printArg (.buf size data) = xprint_escape 0x80 data false size ∧
    (printArg (.str b)).length ≤ 130 ∧
    (printArg (.buf size data)).length ≤ 130 :=
  ⟨rfl, rfl, xprint_escape_len128 b true 0, xprint_escape_len128 data false size⟩

/-- Counterexample to C9 as stated: a zero-terminated string argument
of one printable byte followed by 32 bytes 0x01 renders as 130
characters, exceeding the claimed 128-byte bound. -/
theorem c9_counterexample :
    128 < (printArg (.str (some (97 :: List.replicate 32 1)))).length ∧
      (printArg (.str (some (97 :: List.replicate 32 1)))).length = 130 := by
  constructor
  · decide
  · decide

/-! ## Read-family buffers and the open-family mode argument -/

/-- C2 (amended): only `read` (and `readlink`) render the destination
buffer with the *result* length — zero when the result marker is
UNKNOWN or the result negative, the result value otherwise.  `pread64`
renders its destination buffer with the *requested* length `arg2`
unconditionally, and the `readv` class renders the iovec pointer as a
hex value, with no buffer contents at all. -/
theorem c2_read_family_buffer_length (a : Args) (mem : Mem)
    (rk : LogResult) (result : Int) :
    (syscallBody 0 a mem rk result =
      print_syscall "read".data 3
        [.fd a.a0, .buf (toULong (readPrintSize rk result)) (memArg mem a.a1),
         .dec a.a2] rk result) ∧
    (rk = .unknown ∨ result < 0 → readPrintSize rk result = 0) ∧
    (rk = .known → 0 ≤ result → readPrintSize rk result = result) ∧
    (syscallBody 17 a mem rk result =
      print_syscall "pread64".data 4
        [.fd a.a0, .buf (toULong a.a2) (memArg mem a.a1), .dec a.a2, .dec a.a3]
        rk result) ∧
    (syscallBody 19 a mem rk result =
      print_syscall "readv".data 3 [.fd a.a0, .hex (toULong a.a1), .dec a.a2]
        rk result) := by
  refine ⟨rfl, ?_, ?_, by norm_num [syscallBody], by norm_num [syscallBody]⟩
  · intro h
    unfold readPrintSize
    rw [if_pos h]
  · intro h1 h2
    unfold readPrintSize
    rw [if_neg (show ¬(rk = .unknown ∨ result < 0) by subst h1; simp; omega)]

/-- Witness for C2 (amended), discharging the UNKNOWN-result hypothesis
at a concrete input. -/
theorem c2_read_family_buffer_length_witness :
    ((LogResult.unknown = LogResult.unknown) ∨ (0 : Int) < 0) ∧
      readPrintSize .unknown 0 = 0 :=
  ⟨Or.inl rfl,
    (c2_read_family_buffer_length ⟨0, 0, 0, 0, 0, 0⟩ memDemo .unknown 0).2.1
      (Or.inl rfl)⟩

/-- Counterexample to C2 as stated: `pread64` with an UNKNOWN result
marker renders the destination buffer with the requested length 3
(bytes `"abc"`), where the claim demands a zero-length buffer. -/
theorem c2_counterexample :
    syscallBody 17 ⟨3, 1000, 3, 7, 0, 0⟩ memDemo .unknown 0 =
      some "pread64(3, \"abc\", 3, 7) = ?".data ∧
    some "pread64(3, \"abc\", 3, 7) = ?".data ≠
      some "pread64(3, \"\", 3, 7) = ?".data := by
  constructor
  · decide
  · decide

/-- C3 (amended): `open` includes the permission-mode argument exactly
when `O_CREAT` (0o100 = 64) is present in the flags argument; `openat`
always includes the mode argument, whether or not `O_CREAT` is set. -/
theorem c3_open_mode_iff_creat (a : Args) (mem : Mem) (rk : LogResult)
    (result : Int) :
    (land64 (toULong a.a1) 64 ≠ 0 →
      syscallBody 2 a mem rk result =
        print_syscall "open".data 3
          [.str (memArg mem a.a0), .openFlags a.a1, .octMode (toULong a.a2)]
          rk result) ∧
    (land64 (toULong a.a1) 64 = 0 →
      syscallBody 2 a mem rk result =
        print_syscall "open".data 2 [.str (memArg mem a.a0), .openFlags a.a1]
          rk result) ∧
    syscallBody 257 a mem rk result =
      print_syscall "openat".data 4
        [.atfd a.a0, .str (memArg mem a.a1), .openFlags a.a2,
         .octMode (toULong a.a3)] rk result := by
  have hopen : syscallBody 2 a mem rk result = openBody a mem rk result := by
    norm_num [syscallBody]
  refine ⟨?_, ?_, by norm_num [syscallBody]⟩
  · intro h
    rw [hopen]
    unfold openBody
    rw [if_pos h]
  · intro h
    rw [hopen]
    unfold openBody
    rw [if_neg (by simp [h])]

/-- Witness for C3 (amended) at `open` with `O_CREAT` present. -/
theorem c3_open_mode_iff_creat_witness :
    land64 (toULong 64) 64 ≠ 0 ∧
      syscallBody 2 ⟨3000, 64, 0, 0, 0, 0⟩ memDemo .known 3 =
        print_syscall "open".data 3
          [.str (memArg memDemo 3000), .openFlags 64, .octMode (toULong 0)]
          .known 3 :=
  ⟨by decide,
    (c3_open_mode_iff_creat ⟨3000, 64, 0, 0, 0, 0⟩ memDemo .known 3).1
      (by decide)⟩

/-- Counterexample to C3 as stated: `openat` with flags 0 (no `O_CREAT`)
still renders a fourth, permission-mode argument (`00`), where the
claim demands a line with no mode argument. -/
theorem c3_counterexample :
    syscallBody 257 ⟨5, 2000, 0, 0, 0, 0⟩ memDemo .known 3 =
      some "openat(5, \"x\", O_RDONLY, 00) = 3".data ∧
    some "openat(5, \"x\", O_RDONLY, 00) = 3".data ≠
      some "openat(5, \"x\", O_RDONLY) = 3".data := by
  constructor
  · decide
  · decide

/-! ## The flag-set decoder against the specification text -/

lemma land64_zero_left (b : Nat) : land64 0 b = 0 := by
  simp [land64, andBits]

lemma selAny_zero (desc : List FlagDesc) : selAny 0 desc = ([], 0) := by
  induction desc with
  | nil => rfl
  | cons d rest ih => simp [selAny, land64_zero_left, ih]

/-- The appending loop of `print_flag_set` computes exactly the
selection described by the any-overlap rule: the emitted text renders
the selected names, anything was appended iff the buffer was started or
a name was selected, and the remaining mask is the selection's
remainder.  Tables carry no zero-mask entry (the zero mask is the array
terminator in the C). -/
lemma flagSetLoop_selAny : ∀ (desc : List FlagDesc) (flags : Nat) (started : Bool),
    (∀ d ∈ desc, d.flag ≠ 0) →
    flagSetLoop started flags desc =
      (emitNames started (selAny flags desc).1,
       started || !(selAny flags desc).1.isEmpty,
       (selAny flags desc).2) := by
  intro desc
  induction desc with
  | nil => intro flags started _; simp [flagSetLoop, selAny, emitNames]
  | cons d rest ih =>
    intro flags started h
    have hd : d.flag ≠ 0 := h d (List.mem_cons_self d rest)
    have hrest : ∀ x ∈ rest, x.flag ≠ 0 := fun x hx => h x (List.mem_cons_of_mem d hx)
    by_cases hf : flags = 0
    · subst hf
      simp [flagSetLoop, selAny_zero, emitNames]
    · by_cases hmatch : land64 flags d.flag ≠ 0
      · simp only [flagSetLoop, selAny, if_neg hf, if_neg hd, if_pos hmatch]
        rw [ih (land64 flags (comp64 d.flag)) true hrest]
        simp [emitNames]
      · simp only [flagSetLoop, selAny, if_neg hf, if_neg hd, if_neg hmatch]
        exact ih flags started hrest

lemma emitNames_true (ns : List (List Char)) :
    emitNames true ns = (ns.map (fun i => " | ".data ++ i)).flatten := by
  induction ns with
  | nil => rfl
  | cons n t ih => simp [emitNames, print_flag, ih]

lemma joinBarSep_cons (n : List Char) (t : List (List Char)) :
    joinBarSep (n :: t) = n ++ (t.map (fun i => " | ".data ++ i)).flatten := by
  induction t generalizing n with
  | nil => simp [joinBarSep]
  | cons x xs ih => simp [joinBarSep, ih, List.append_assoc]

lemma emitNames_false (ns : List (List Char)) :
    emitNames false ns = joinBarSep ns := by
  cases ns with
  | nil => rfl
  | cons n t => simp [emitNames, print_flag, emitNames_true, joinBarSep_cons]

/-- C4 (amended): for every bitmask and every flag table (all entries
carrying a nonzero mask — the zero mask is the table terminator), the
decoder appends a table entry's name, joined by `" | "` with no leading
separator, exactly when that entry's bits *intersect* the remaining
mask (share at least one bit — not: are fully contained in it), then
clears all the entry's bits from the remaining mask; after the table
any remaining bits are appended as one `0x`-prefixed hex literal, and
if nothing was ever appended the output is the literal `0`. -/
theorem c4_flag_decoder (started : Bool) (flags : Nat) (desc : List FlagDesc)
    (h : ∀ d ∈ desc, d.flag ≠ 0) :
    print_flag_set started flags desc = flagDecodeAny started flags desc := by
  unfold print_flag_set flagDecodeAny flagDecodeWith
  rw [flagSetLoop_selAny desc flags started h]
  rcases hsel : selAny flags desc with ⟨ns, r⟩
  by_cases hr : r = 0
  · subst hr
    rcases started with _ | _
    · rcases ns with _ | ⟨n, t⟩
      · simp [emitNames]
      · simp [emitNames_false, joinBarSep_cons]
    · simp [emitNames_true]
  · rcases started with _ | _
    · rcases ns with _ | ⟨n, t⟩
      · simp [emitNames, joinBarSep, hr]
      · simp only [hr, if_pos, List.isEmpty_cons, Bool.false_or, Bool.not_false,
          if_true, ne_eq, not_false_iff]
        rw [emitNames_false]
        simp [hr, joinBarSep_cons, List.map_append, List.flatten_append,
          List.append_assoc]
    · simp [hr, emitNames_true, List.map_append, List.flatten_append,
        List.append_assoc]

/-- Witness for C4 (amended) on the real `open_flags` table with mask
`O_APPEND | O_CREAT` = 1088. -/
theorem c4_flag_decoder_witness :
    (∀ d ∈ open_flags, d.flag ≠ 0) ∧
      print_flag_set false 1088 open_flags = flagDecodeAny false 1088 open_flags :=
  ⟨by decide, c4_flag_decoder false 1088 open_flags (by decide)⟩

/-- Counterexample to C4 as stated: a table with the single two-bit
entry mask 3 and the mask 1.  The entry's bits are not fully contained
in the mask, so the claim demands the remainder rendering `0x1`; the
code tests for any overlap and renders the entry's name. -/
theorem c4_counterexample :
    print_flag_set false 1 [⟨3, "FOO".data⟩] = "FOO".data ∧
    flagDecodeContained false 1 [⟨3, "FOO".data⟩] = "0x1".data ∧
    print_flag_set false 1 [⟨3, "FOO".data⟩] ≠
      flagDecodeContained false 1 [⟨3, "FOO".data⟩] := by
  refine ⟨by decide, by decide, by decide⟩

/-! ## Well-formedness of every dispatched line, and the generic fallback -/

lemma isPrintShape_ps (name : List Char) (count : Nat) (pairs : List FmtArg)
    (rk : LogResult) (result : Int) (h : count = pairs.length) :
    IsPrintShape (print_syscall name count pairs rk result) rk result :=
  ⟨name, pairs, by simp [print_syscall, h]⟩

lemma isPrintShape_openBody (a : Args) (mem : Mem) (rk : LogResult)
    (result : Int) : IsPrintShape (openBody a mem rk result) rk result := by
  unfold openBody
  split_ifs
  · exact isPrintShape_ps _ _ _ _ _ rfl
  · exact isPrintShape_ps _ _ _ _ _ rfl

lemma shape_ite {c : Prop} [Decidable c] {t e : Option (List Char)}
    {rk : LogResult} {result : Int}
    (ht : c → IsPrintShape t rk result) (he : ¬c → IsPrintShape e rk result) :
    IsPrintShape (if c then t else e) rk result := by
  split_ifs with h
  exacts [ht h, he h]

lemma ite_skip {α : Sort _} {c : Prop} [inst : Decidable c] {t e r : α}
    (hc : ¬c) (he : e = r) : (if c then t else e) = r := by
  rw [if_neg hc, he]

/-- Every dispatch branch except the `exit`, `exit_group` and `vfork`
specials (and the undefined `mkdirat` entry) produces a body of the
well-formed `print_syscall` shape. -/
lemma syscallBody_shape (nr : Int) (a : Args) (mem : Mem) (rk : LogResult)
    (result : Int) (h60 : nr ≠ 60) (h231 : nr ≠ 231) (h58 : nr ≠ 58)
    (h258 : nr ≠ 258) :
    IsPrintShape (syscallBody nr a mem rk result) rk result := by
  unfold syscallBody
  refine shape_ite (fun _ => isPrintShape_ps _ _ _ _ _ rfl) (fun _ => ?_)
  refine shape_ite (fun _ => isPrintShape_ps _ _ _ _ _ rfl) (fun _ => ?_)
  refine shape_ite (fun _ => isPrintShape_openBody a mem rk result) (fun _ => ?_)
  refine shape_ite (fun _ => isPrintShape_ps _ _ _ _ _ rfl) (fun _ => ?_)
  refine shape_ite (fun _ => isPrintShape_ps _ _ _ _ _ rfl) (fun _ => ?_)
  refine shape_ite (fun _ => isPrintShape_ps _ _ _ _ _ rfl) (fun _ => ?_)
  refine shape_ite (fun _ => isPrintShape_ps _ _ _ _ _ rfl) (fun _ => ?_)
  refine shape_ite (fun _ => isPrintShape_ps _ _ _ _ _ rfl) (fun _ => ?_)
  refine shape_ite (fun _ => isPrintShape_ps _ _ _ _ _ rfl) (fun _ => ?_)
  refine shape_ite (fun _ => isPrintShape_ps _ _ _ _ _ rfl) (fun _ => ?_)
  refine shape_ite (fun _ => isPrintShape_ps _ _ _ _ _ rfl) (fun _ => ?_)
  refine shape_ite (fun _ => isPrintShape_ps _ _ _ _ _ rfl) (fun _ => ?_)
  refine shape_ite (fun _ => isPrintShape_ps _ _ _ _ _ rfl) (fun _ => ?_)
  refine shape_ite (fun _ => isPrintShape_ps _ _ _ _ _ rfl) (fun _ => ?_)
  refine shape_ite (fun _ => isPrintShape_ps _ _ _ _ _ rfl) (fun _ => ?_)
  refine shape_ite (fun _ => isPrintShape_ps _ _ _ _ _ rfl) (fun _ => ?_)
  refine shape_ite (fun _ => isPrintShape_ps _ _ _ _ _ rfl) (fun _ => ?_)
  refine shape_ite (fun _ => isPrintShape_ps _ _ _ _ _ rfl) (fun _ => ?_)
  refine shape_ite (fun _ => isPrintShape_ps _ _ _ _ _ rfl) (fun _ => ?_)
  refine shape_ite (fun _ => isPrintShape_ps _ _ _ _ _ rfl) (fun _ => ?_)
  refine shape_ite (fun _ => isPrintShape_ps _ _ _ _ _ rfl) (fun _ => ?_)
  refine shape_ite (fun _ => isPrintShape_ps _ _ _ _ _ rfl) (fun _ => ?_)
  refine shape_ite (fun _ => isPrintShape_ps _ _ _ _ _ rfl) (fun _ => ?_)
  refine shape_ite (fun _ => isPrintShape_ps _ _ _ _ _ rfl) (fun _ => ?_)
  refine shape_ite (fun _ => isPrintShape_ps _ _ _ _ _ rfl) (fun _ => ?_)
  refine shape_ite (fun _ => isPrintShape_ps _ _ _ _ _ rfl) (fun _ => ?_)
  refine shape_ite (fun _ => isPrintShape_ps _ _ _ _ _ rfl) (fun _ => ?_)
  refine shape_ite (fun _ => isPrintShape_ps _ _ _ _ _ rfl) (fun _ => ?_)
  refine shape_ite (fun _ => isPrintShape_ps _ _ _ _ _ rfl) (fun _ => ?_)
  refine shape_ite (fun _ => isPrintShape_ps _ _ _ _ _ rfl) (fun _ => ?_)
  refine shape_ite (fun _ => isPrintShape_ps _ _ _ _ _ rfl) (fun _ => ?_)
  refine shape_ite (fun _ => isPrintShape_ps _ _ _ _ _ rfl) (fun _ => ?_)
  refine shape_ite (fun _ => isPrintShape_ps _ _ _ _ _ rfl) (fun _ => ?_)
  refine shape_ite (fun _ => isPrintShape_ps _ _ _ _ _ rfl) (fun _ => ?_)
  refine shape_ite (fun _ => isPrintShape_ps _ _ _ _ _ rfl) (fun _ => ?_)
  refine shape_ite (fun _ => isPrintShape_ps _ _ _ _ _ rfl) (fun _ => ?_)
  refine shape_ite (fun _ => isPrintShape_ps _ _ _ _ _ rfl) (fun _ => ?_)
  refine shape_ite (fun _ => isPrintShape_ps _ _ _ _ _ rfl) (fun _ => ?_)
  refine shape_ite (fun _ => isPrintShape_ps _ _ _ _ _ rfl) (fun _ => ?_)
  refine shape_ite (fun _ => isPrintShape_ps _ _ _ _ _ rfl) (fun _ => ?_)
  refine shape_ite (fun _ => isPrintShape_ps _ _ _ _ _ rfl) (fun _ => ?_)
  refine shape_ite (fun _ => isPrintShape_ps _ _ _ _ _ rfl) (fun _ => ?_)
  refine shape_ite (fun _ => isPrintShape_ps _ _ _ _ _ rfl) (fun _ => ?_)
  refine shape_ite (fun _ => isPrintShape_ps _ _ _ _ _ rfl) (fun _ => ?_)
  refine shape_ite (fun _ => isPrintShape_ps _ _ _ _ _ rfl) (fun _ => ?_)
  refine shape_ite (fun _ => isPrintShape_ps _ _ _ _ _ rfl) (fun _ => ?_)
  refine shape_ite (fun _ => isPrintShape_ps _ _ _ _ _ rfl) (fun _ => ?_)
  refine shape_ite (fun _ => isPrintShape_ps _ _ _ _ _ rfl) (fun _ => ?_)
  refine shape_ite (fun _ => isPrintShape_ps _ _ _ _ _ rfl) (fun _ => ?_)
  refine shape_ite (fun _ => isPrintShape_ps _ _ _ _ _ rfl) (fun _ => ?_)
  refine shape_ite (fun _ => isPrintShape_ps _ _ _ _ _ rfl) (fun _ => ?_)
  refine shape_ite (fun _ => isPrintShape_ps _ _ _ _ _ rfl) (fun _ => ?_)
  refine shape_ite (fun _ => isPrintShape_ps _ _ _ _ _ rfl) (fun _ => ?_)
  refine shape_ite (fun _ => isPrintShape_ps _ _ _ _ _ rfl) (fun _ => ?_)
  refine shape_ite (fun h => absurd h h258) (fun _ => ?_)
  refine shape_ite (fun _ => isPrintShape_ps _ _ _ _ _ rfl) (fun _ => ?_)
  refine shape_ite (fun _ => isPrintShape_ps _ _ _ _ _ rfl) (fun _ => ?_)
  refine shape_ite (fun _ => isPrintShape_ps _ _ _ _ _ rfl) (fun _ => ?_)
  refine shape_ite (fun _ => isPrintShape_ps _ _ _ _ _ rfl) (fun _ => ?_)
  refine shape_ite (fun _ => isPrintShape_ps _ _ _ _ _ rfl) (fun _ => ?_)
  refine shape_ite (fun _ => isPrintShape_ps _ _ _ _ _ rfl) (fun _ => ?_)
  refine shape_ite (fun _ => isPrintShape_ps _ _ _ _ _ rfl) (fun _ => ?_)
  refine shape_ite (fun _ => isPrintShape_ps _ _ _ _ _ rfl) (fun _ => ?_)
  refine shape_ite (fun _ => isPrintShape_ps _ _ _ _ _ rfl) (fun _ => ?_)
  refine shape_ite (fun _ => isPrintShape_ps _ _ _ _ _ rfl) (fun _ => ?_)
  refine shape_ite (fun _ => isPrintShape_ps _ _ _ _ _ rfl) (fun _ => ?_)
  refine shape_ite (fun _ => isPrintShape_ps _ _ _ _ _ rfl) (fun _ => ?_)
  refine shape_ite (fun _ => isPrintShape_ps _ _ _ _ _ rfl) (fun _ => ?_)
  refine shape_ite (fun _ => isPrintShape_ps _ _ _ _ _ rfl) (fun _ => ?_)
  refine shape_ite (fun _ => isPrintShape_ps _ _ _ _ _ rfl) (fun _ => ?_)
  refine shape_ite (fun _ => isPrintShape_ps _ _ _ _ _ rfl) (fun _ => ?_)
  refine shape_ite (fun _ => isPrintShape_ps _ _ _ _ _ rfl) (fun _ => ?_)
  refine shape_ite (fun _ => isPrintShape_ps _ _ _ _ _ rfl) (fun _ => ?_)
  refine shape_ite (fun _ => isPrintShape_ps _ _ _ _ _ rfl) (fun _ => ?_)
  refine shape_ite (fun _ => isPrintShape_ps _ _ _ _ _ rfl) (fun _ => ?_)
  refine shape_ite (fun _ => isPrintShape_ps _ _ _ _ _ rfl) (fun _ => ?_)
  refine shape_ite (fun _ => isPrintShape_ps _ _ _ _ _ rfl) (fun _ => ?_)
  refine shape_ite (fun _ => isPrintShape_ps _ _ _ _ _ rfl) (fun _ => ?_)
  refine shape_ite (fun _ => isPrintShape_ps _ _ _ _ _ rfl) (fun _ => ?_)
  refine shape_ite (fun _ => isPrintShape_ps _ _ _ _ _ rfl) (fun _ => ?_)
  refine shape_ite (fun h => absurd h h231) (fun _ => ?_)
  refine shape_ite (fun h => absurd h h60) (fun _ => ?_)
  refine shape_ite (fun _ => isPrintShape_ps _ _ _ _ _ rfl) (fun _ => ?_)
  refine shape_ite (fun _ => isPrintShape_ps _ _ _ _ _ rfl) (fun _ => ?_)
  refine shape_ite (fun h => absurd h h58) (fun _ => ?_)
  refine shape_ite (fun _ => isPrintShape_ps _ _ _ _ _ rfl) (fun _ => ?_)
  refine shape_ite (fun _ => isPrintShape_ps _ _ _ _ _ rfl) (fun _ => ?_)
  refine shape_ite (fun _ => isPrintShape_ps _ _ _ _ _ rfl) (fun _ => ?_)
  refine shape_ite (fun _ => isPrintShape_ps _ _ _ _ _ rfl) (fun _ => ?_)
  refine shape_ite (fun _ => isPrintShape_ps _ _ _ _ _ rfl) (fun _ => ?_)
  refine shape_ite (fun _ => isPrintShape_ps _ _ _ _ _ rfl) (fun _ => ?_)
  refine shape_ite (fun _ => isPrintShape_ps _ _ _ _ _ rfl) (fun _ => ?_)
  refine shape_ite (fun _ => isPrintShape_ps _ _ _ _ _ rfl) (fun _ => ?_)
  refine shape_ite (fun _ => isPrintShape_ps _ _ _ _ _ rfl) (fun _ => ?_)
  refine shape_ite (fun _ => isPrintShape_ps _ _ _ _ _ rfl) (fun _ => ?_)
  refine shape_ite (fun _ => isPrintShape_ps _ _ _ _ _ rfl) (fun _ => ?_)
  refine shape_ite (fun _ => isPrintShape_ps _ _ _ _ _ rfl) (fun _ => ?_)
  refine shape_ite (fun _ => isPrintShape_ps _ _ _ _ _ rfl) (fun _ => ?_)
  refine shape_ite (fun _ => isPrintShape_ps _ _ _ _ _ rfl) (fun _ => ?_)
  refine shape_ite (fun _ => isPrintShape_ps _ _ _ _ _ rfl) (fun _ => ?_)
  refine shape_ite (fun _ => isPrintShape_ps _ _ _ _ _ rfl) (fun _ => ?_)
  refine shape_ite (fun _ => isPrintShape_ps _ _ _ _ _ rfl) (fun _ => ?_)
  refine shape_ite (fun _ => isPrintShape_ps _ _ _ _ _ rfl) (fun _ => ?_)
  refine shape_ite (fun _ => isPrintShape_ps _ _ _ _ _ rfl) (fun _ => ?_)
  refine shape_ite (fun _ => isPrintShape_ps _ _ _ _ _ rfl) (fun _ => ?_)
  refine shape_ite (fun _ => isPrintShape_ps _ _ _ _ _ rfl) (fun _ => ?_)
  refine shape_ite (fun _ => isPrintShape_ps _ _ _ _ _ rfl) (fun _ => ?_)
  refine shape_ite (fun _ => isPrintShape_ps _ _ _ _ _ rfl) (fun _ => ?_)
  refine shape_ite (fun _ => isPrintShape_ps _ _ _ _ _ rfl) (fun _ => ?_)
  refine shape_ite (fun _ => isPrintShape_ps _ _ _ _ _ rfl) (fun _ => ?_)
  refine shape_ite (fun _ => isPrintShape_ps _ _ _ _ _ rfl) (fun _ => ?_)
  refine shape_ite (fun _ => isPrintShape_ps _ _ _ _ _ rfl) (fun _ => ?_)
  refine shape_ite (fun _ => isPrintShape_ps _ _ _ _ _ rfl) (fun _ => ?_)
  refine shape_ite (fun _ => isPrintShape_ps _ _ _ _ _ rfl) (fun _ => ?_)
  refine shape_ite (fun _ => isPrintShape_ps _ _ _ _ _ rfl) (fun _ => ?_)
  refine shape_ite (fun _ => isPrintShape_ps _ _ _ _ _ rfl) (fun _ => ?_)
  refine shape_ite (fun _ => isPrintShape_ps _ _ _ _ _ rfl) (fun _ => ?_)
  refine shape_ite (fun _ => isPrintShape_ps _ _ _ _ _ rfl) (fun _ => ?_)
  refine shape_ite (fun _ => isPrintShape_ps _ _ _ _ _ rfl) (fun _ => ?_)
  refine shape_ite (fun _ => isPrintShape_ps _ _ _ _ _ rfl) (fun _ => ?_)
  refine shape_ite (fun _ => isPrintShape_ps _ _ _ _ _ rfl) (fun _ => ?_)
  refine shape_ite (fun _ => isPrintShape_ps _ _ _ _ _ rfl) (fun _ => ?_)
  refine shape_ite (fun _ => isPrintShape_ps _ _ _ _ _ rfl) (fun _ => ?_)
  refine shape_ite (fun _ => isPrintShape_ps _ _ _ _ _ rfl) (fun _ => ?_)
  refine shape_ite (fun _ => isPrintShape_ps _ _ _ _ _ rfl) (fun _ => ?_)
  refine shape_ite (fun _ => isPrintShape_ps _ _ _ _ _ rfl) (fun _ => ?_)
  refine shape_ite (fun _ => isPrintShape_ps _ _ _ _ _ rfl) (fun _ => ?_)
  refine shape_ite (fun _ => isPrintShape_ps _ _ _ _ _ rfl) (fun _ => ?_)
  refine shape_ite (fun _ => isPrintShape_ps _ _ _ _ _ rfl) (fun _ => ?_)
  refine shape_ite (fun _ => isPrintShape_ps _ _ _ _ _ rfl) (fun _ => ?_)
  refine shape_ite (fun _ => isPrintShape_ps _ _ _ _ _ rfl) (fun _ => ?_)
  refine shape_ite (fun _ => isPrintShape_ps _ _ _ _ _ rfl) (fun _ => ?_)
  refine shape_ite (fun _ => isPrintShape_ps _ _ _ _ _ rfl) (fun _ => ?_)
  refine shape_ite (fun _ => isPrintShape_ps _ _ _ _ _ rfl) (fun _ => ?_)
  refine shape_ite (fun _ => isPrintShape_ps _ _ _ _ _ rfl) (fun _ => ?_)
  refine shape_ite (fun _ => isPrintShape_ps _ _ _ _ _ rfl) (fun _ => ?_)
  refine shape_ite (fun _ => isPrintShape_ps _ _ _ _ _ rfl) (fun _ => ?_)
  refine shape_ite (fun _ => isPrintShape_ps _ _ _ _ _ rfl) (fun _ => ?_)
  refine shape_ite (fun _ => isPrintShape_ps _ _ _ _ _ rfl) (fun _ => ?_)
  refine shape_ite (fun _ => isPrintShape_ps _ _ _ _ _ rfl) (fun _ => ?_)
  refine shape_ite (fun _ => isPrintShape_ps _ _ _ _ _ rfl) (fun _ => ?_)
  refine shape_ite (fun _ => isPrintShape_ps _ _ _ _ _ rfl) (fun _ => ?_)
  refine shape_ite (fun _ => isPrintShape_ps _ _ _ _ _ rfl) (fun _ => ?_)
  refine shape_ite (fun _ => isPrintShape_ps _ _ _ _ _ rfl) (fun _ => ?_)
  refine shape_ite (fun _ => isPrintShape_ps _ _ _ _ _ rfl) (fun _ => ?_)
  refine shape_ite (fun _ => isPrintShape_ps _ _ _ _ _ rfl) (fun _ => ?_)
  refine shape_ite (fun _ => isPrintShape_ps _ _ _ _ _ rfl) (fun _ => ?_)
  refine shape_ite (fun _ => isPrintShape_ps _ _ _ _ _ rfl) (fun _ => ?_)
  refine shape_ite (fun _ => isPrintShape_ps _ _ _ _ _ rfl) (fun _ => ?_)
  refine shape_ite (fun _ => isPrintShape_ps _ _ _ _ _ rfl) (fun _ => ?_)
  refine shape_ite (fun _ => isPrintShape_ps _ _ _ _ _ rfl) (fun _ => ?_)
  refine shape_ite (fun _ => isPrintShape_ps _ _ _ _ _ rfl) (fun _ => ?_)
  refine shape_ite (fun _ => isPrintShape_ps _ _ _ _ _ rfl) (fun _ => ?_)
  refine shape_ite (fun _ => isPrintShape_ps _ _ _ _ _ rfl) (fun _ => ?_)
  refine shape_ite (fun _ => isPrintShape_ps _ _ _ _ _ rfl) (fun _ => ?_)
  refine shape_ite (fun _ => isPrintShape_ps _ _ _ _ _ rfl) (fun _ => ?_)
  refine shape_ite (fun _ => isPrintShape_ps _ _ _ _ _ rfl) (fun _ => ?_)
  refine shape_ite (fun _ => isPrintShape_ps _ _ _ _ _ rfl) (fun _ => ?_)
  refine shape_ite (fun _ => isPrintShape_ps _ _ _ _ _ rfl) (fun _ => ?_)
  refine shape_ite (fun _ => isPrintShape_ps _ _ _ _ _ rfl) (fun _ => ?_)
  refine shape_ite (fun _ => isPrintShape_ps _ _ _ _ _ rfl) (fun _ => ?_)
  exact isPrintShape_ps _ _ _ _ _ rfl

/-- C5: for every syscall number with no dispatch-table entry, the
renderer falls back to a generic line whose name is the literal
`syscall`, whose first argument is the numeric syscall number in
decimal, followed by all six raw arguments rendered in hex, followed by
the result segment. -/
theorem c5_unknown_syscall_fallback (nr : Int) (a : Args) (mem : Mem)
    (rk : LogResult) (result : Int) (h : nr ∉ knownNrs) :
    syscallBody nr a mem rk result =
      print_syscall "syscall".data 7
        [.dec nr, .hex (toULong a.a0), .hex (toULong a.a1), .hex (toULong a.a2),
         .hex (toULong a.a3), .hex (toULong a.a4), .hex (toULong a.a5)]
        rk result := by
  simp only [knownNrs, List.mem_cons, List.not_mem_nil, or_false, not_or] at h
  obtain ⟨k0, k1, k2, k3, k4, k5, k6, k7, k8, k9, k10, k11, k12, k13, k14, k15, k16, k17, k18, k19, k20, k21, k22, k23, k24, k25, k26, k27, k28, k29, k30, k31, k32, k33, k34, k35, k36, k37, k38, k39, k40, k41, k42, k43, k44, k45, k46, k47, k48, k49, k50, k51, k52, k53, k54, k55, k56, k57, k58, k59, k60, k61, k62, k63, k64, k65, k66, k67, k68, k69, k70, k71, k72, k73, k74, k75, k76, k77, k78, k79, k80, k81, k82, k83, k84, k85, k86, k87, k88, k89, k90, k91, k92, k93, k94, k95, k96, k97, k98, k99, k100, k101, k102, k103, k104, k105, k106, k107, k108, k109, k110, k111, k112, k113, k114, k115, k116, k117, k118, k119, k120, k121, k122, k123, k124, k125, k126, k127, k128, k129, k130, k131, k132, k133, k134, k135, k136, k137, k138, k139, k140, k141, k142, k143, k144, k145, k146, k147, k148, k149, k150, k151, k152, k153, k154, k155, k156, k157, k158, k159, k160⟩ := h
  unfold syscallBody
  refine ite_skip k0 ?_
  refine ite_skip k1 ?_
  refine ite_skip k2 ?_
  refine ite_skip k3 ?_
  refine ite_skip k4 ?_
  refine ite_skip k5 ?_
  refine ite_skip k6 ?_
  refine ite_skip k7 ?_
  refine ite_skip k8 ?_
  refine ite_skip k9 ?_
  refine ite_skip k10 ?_
  refine ite_skip k11 ?_
  refine ite_skip k12 ?_
  refine ite_skip k13 ?_
  refine ite_skip k14 ?_
  refine ite_skip k15 ?_
  refine ite_skip k16 ?_
  refine ite_skip k17 ?_
  refine ite_skip k18 ?_
  refine ite_skip k19 ?_
  refine ite_skip k20 ?_
  refine ite_skip k21 ?_
  refine ite_skip k22 ?_
  refine ite_skip k23 ?_
  refine ite_skip k24 ?_
  refine ite_skip k25 ?_
  refine ite_skip k26 ?_
  refine ite_skip k27 ?_
  refine ite_skip k28 ?_
  refine ite_skip k29 ?_
  refine ite_skip k30 ?_
  refine ite_skip k31 ?_
  refine ite_skip k32 ?_
  refine ite_skip k33 ?_
  refine ite_skip k34 ?_
  refine ite_skip k35 ?_
  refine ite_skip k36 ?_
  refine ite_skip k37 ?_
  refine ite_skip k38 ?_
  refine ite_skip k39 ?_
  refine ite_skip k40 ?_
  refine ite_skip k41 ?_
  refine ite_skip k42 ?_
  refine ite_skip k43 ?_
  refine ite_skip k44 ?_
  refine ite_skip k45 ?_
  refine ite_skip k46 ?_
  refine ite_skip k47 ?_
  refine ite_skip k48 ?_
  refine ite_skip k49 ?_
  refine ite_skip k50 ?_
  refine ite_skip k51 ?_
  refine ite_skip k52 ?_
  refine ite_skip k53 ?_
  refine ite_skip k54 ?_
  refine ite_skip k55 ?_
  refine ite_skip k56 ?_
  refine ite_skip k57 ?_
  refine ite_skip k58 ?_
  refine ite_skip k59 ?_
  refine ite_skip k60 ?_
  refine ite_skip k61 ?_
  refine ite_skip k62 ?_
  refine ite_skip k63 ?_
  refine ite_skip k64 ?_
  refine ite_skip k65 ?_
  refine ite_skip k66 ?_
  refine ite_skip k67 ?_
  refine ite_skip k68 ?_
  refine ite_skip k69 ?_
  refine ite_skip k70 ?_
  refine ite_skip k71 ?_
  refine ite_skip k72 ?_
  refine ite_skip k73 ?_
  refine ite_skip k74 ?_
  refine ite_skip k75 ?_
  refine ite_skip k76 ?_
  refine ite_skip k77 ?_
  refine ite_skip k78 ?_
  refine ite_skip k79 ?_
  refine ite_skip k80 ?_
  refine ite_skip k81 ?_
  refine ite_skip k82 ?_
  refine ite_skip k83 ?_
  refine ite_skip k84 ?_
  refine ite_skip k85 ?_
  refine ite_skip k86 ?_
  refine ite_skip k87 ?_
  refine ite_skip k88 ?_
  refine ite_skip k89 ?_
  refine ite_skip k90 ?_
  refine ite_skip k91 ?_
  refine ite_skip k92 ?_
  refine ite_skip k93 ?_
  refine ite_skip k94 ?_
  refine ite_skip k95 ?_
  refine ite_skip k96 ?_
  refine ite_skip k97 ?_
  refine ite_skip k98 ?_
  refine ite_skip k99 ?_
  refine ite_skip k100 ?_
  refine ite_skip k101 ?_
  refine ite_skip k102 ?_
  refine ite_skip k103 ?_
  refine ite_skip k104 ?_
  refine ite_skip k105 ?_
  refine ite_skip k106 ?_
  refine ite_skip k107 ?_
  refine ite_skip k108 ?_
  refine ite_skip k109 ?_
  refine ite_skip k110 ?_
  refine ite_skip k111 ?_
  refine ite_skip k112 ?_
  refine ite_skip k113 ?_
  refine ite_skip k114 ?_
  refine ite_skip k115 ?_
  refine ite_skip k116 ?_
  refine ite_skip k117 ?_
  refine ite_skip k118 ?_
  refine ite_skip k119 ?_
  refine ite_skip k120 ?_
  refine ite_skip k121 ?_
  refine ite_skip k122 ?_
  refine ite_skip k123 ?_
  refine ite_skip k124 ?_
  refine ite_skip k125 ?_
  refine ite_skip k126 ?_
  refine ite_skip k127 ?_
  refine ite_skip k128 ?_
  refine ite_skip k129 ?_
  refine ite_skip k130 ?_
  refine ite_skip k131 ?_
  refine ite_skip k132 ?_
  refine ite_skip k133 ?_
  refine ite_skip k134 ?_
  refine ite_skip k135 ?_
  refine ite_skip k136 ?_
  refine ite_skip k137 ?_
  refine ite_skip k138 ?_
  refine ite_skip k139 ?_
  refine ite_skip k140 ?_
  refine ite_skip k141 ?_
  refine ite_skip k142 ?_
  refine ite_skip k143 ?_
  refine ite_skip k144 ?_
  refine ite_skip k145 ?_
  refine ite_skip k146 ?_
  refine ite_skip k147 ?_
  refine ite_skip k148 ?_
  refine ite_skip k149 ?_
  refine ite_skip k150 ?_
  refine ite_skip k151 ?_
  refine ite_skip k152 ?_
  refine ite_skip k153 ?_
  refine ite_skip k154 ?_
  refine ite_skip k155 ?_
  refine ite_skip k156 ?_
  refine ite_skip k157 ?_
  refine ite_skip k158 ?_
  refine ite_skip k159 ?_
  refine ite_skip k160 ?_
  rfl

/-- Witness for C5: syscall number 9999 has no dispatch entry; with
args (1, 2, 0, 0, 0, 0) the generic fallback line is produced (its
rendering is the string
`syscall(9999, 0x1, 0x2, 0x0, 0x0, 0x0, 0x0) = ?`). -/
theorem c5_unknown_syscall_fallback_witness :
    (9999 : Int) ∉ knownNrs ∧
      syscallBody 9999 ⟨1, 2, 0, 0, 0, 0⟩ memDemo .unknown 0 =
        print_syscall "syscall".data 7
          [.dec 9999, .hex (toULong 1), .hex (toULong 2), .hex (toULong 0),
           .hex (toULong 0), .hex (toULong 0), .hex (toULong 0)] .unknown 0 :=
  ⟨by decide,
    c5_unknown_syscall_fallback 9999 ⟨1, 2, 0, 0, 0, 0⟩ memDemo .unknown 0
      (by decide)⟩

/-- C6 (amended): with the sink open, every emitted line conforms to
`<site-label> 0x<offset-hex> -- <name>(<arg0>, ...) = <result-or-?>`
followed by a newline — the result segment being the signed decimal
result when the marker is KNOWN and `?` when it is UNKNOWN — for every
syscall number *except* `exit` (60), `exit_group` (231) and `vfork`
(58), which are rendered without any result segment because control
never returns to the logging point, and `mkdirat` (258), whose
dispatch entry declares four arguments but supplies three format
pairs, leaving its rendering undefined. -/
theorem c6_line_format (st : SinkState) (libpath : List Char) (nr : Int)
    (a : Args) (offset : Nat) (mem : Mem) (rk : LogResult) (result : Int)
    (hfd : 0 ≤ st.fd) (h60 : nr ≠ 60) (h231 : nr ≠ 231) (h58 : nr ≠ 58)
    (h258 : nr ≠ 258) :
    ∃ name args,
      intercept_log_syscall st libpath nr a offset mem rk result =
        [.writeBytes st.fd
          (logPrefix libpath offset ++ lineBody name args rk result ++ ['\n'])] := by
  obtain ⟨name, args, hb⟩ := syscallBody_shape nr a mem rk result h60 h231 h58 h258
  refine ⟨name, args, ?_⟩
  have hr : interceptRender libpath offset nr a mem rk result =
      some (logPrefix libpath offset ++ lineBody name args rk result ++ ['\n']) := by
    unfold interceptRender
    rw [hb]
    rfl
  unfold intercept_log_syscall
  rw [if_neg (show ¬st.fd < 0 by omega), hr]
  show intercept_log st _ = _
  unfold intercept_log
  rw [if_pos hfd]

/-- Witness for C6 (amended) at an open sink and `lseek`. -/
theorem c6_line_format_witness :
    (0 : Int) ≤ (5 : Int) ∧
      ∃ name args,
        intercept_log_syscall ⟨5⟩ "libc".data 8 ⟨0, 0, 2, 0, 0, 0⟩ 100 memDemo
            .known 1024 =
          [.writeBytes 5
            (logPrefix "libc".data 100 ++ lineBody name args .known 1024 ++ ['\n'])] :=
  ⟨by norm_num,
    c6_line_format ⟨5⟩ "libc".data 8 ⟨0, 0, 2, 0, 0, 0⟩ 100 memDemo .known 1024
      (by norm_num) (by norm_num) (by norm_num) (by norm_num) (by norm_num)⟩

/-- Counterexample to C6 as stated: with the sink open, `exit_group`
emits a line containing no result segment at all (not even `?`), for
either result marker — the claim demands a result segment on every
line, in particular for calls whose result cannot be observed. -/
theorem c6_counterexample :
    intercept_log_syscall ⟨5⟩ "libc".data 231 ⟨0, 0, 0, 0, 0, 0⟩ 57005 memDemo
        .known 0 =
      [.writeBytes 5 "libc 0xdead -- exit_group(0)\n".data] ∧
    ('=' ∈ "libc 0xdead -- exit_group(0)\n".data → False) := by
  constructor
  · decide
  · decide

/-! ## The log sink state machine -/

/-- C7: the log sink is a two-state machine over {CLOSED, OPEN}:
write is a no-op when the sink is not open and otherwise performs one
raw append write; close is a no-op when the sink is not open, otherwise
releases the handle and resets the state to CLOSED, and is safe to call
any number of times (a second close is a no-op); open closes any
previously open handle before opening (its event trace is the close's
events followed by the open); so every operation leaves the sink in a
valid CLOSED or OPEN state. -/
theorem c7_sink_state_machine :
    (∀ (st : SinkState) (buffer : List Char), st.fd < 0 →
        intercept_log st buffer = []) ∧
    (∀ (st : SinkState) (buffer : List Char), 0 ≤ st.fd →
        intercept_log st buffer = [.writeBytes st.fd buffer]) ∧
    (∀ st : SinkState, st.fd < 0 → intercept_log_close st = (st, [])) ∧
    (∀ st : SinkState, 0 ≤ st.fd →
        intercept_log_close st = (⟨-1⟩, [.closeFd st.fd])) ∧
    (∀ st : SinkState,
        intercept_log_close (intercept_log_close st).1 =
          ((intercept_log_close st).1, [])) ∧
    (∀ st : SinkState, SinkValid st → SinkValid (intercept_log_close st).1) ∧
    (∀ (st : SinkState) (pb trunc : Option (List Char)) (pid newFd : Int)
        (st2 : SinkState) (ev : List SinkEvent),
        intercept_setup_log st pb trunc pid newFd = some (st2, ev) →
        (pb = none → st2 = st ∧ ev = []) ∧
        (pb ≠ none → st2 = ⟨newFd⟩ ∧
          ∃ path flags, ev = (intercept_log_close st).2 ++ [.openFd path flags 448])) := by
  refine ⟨?_, ?_, ?_, ?_, ?_, ?_, ?_⟩
  · intro st buffer h
    unfold intercept_log
    rw [if_neg (by omega)]
  · intro st buffer h
    unfold intercept_log
    rw [if_pos h]
  · intro st h
    unfold intercept_log_close
    rw [if_neg (by omega)]
  · intro st h
    unfold intercept_log_close
    rw [if_pos h]
  · intro st
    by_cases h : 0 ≤ st.fd
    · norm_num [intercept_log_close, h]
    · norm_num [intercept_log_close, h]
  · intro st hv
    by_cases h : 0 ≤ st.fd
    · simp only [intercept_log_close, if_pos h]
      exact Or.inl rfl
    · simp only [intercept_log_close, if_neg h]
      exact hv
  · intro st pb trunc pid newFd st2 ev h
    rcases pb with _ | p
    · simp only [intercept_setup_log, Option.some.injEq, Prod.mk.injEq] at h
      exact ⟨fun _ => ⟨h.1.symm, h.2.symm⟩, fun hne => absurd rfl hne⟩
    · rcases hl : p.getLast? with _ | c
      · simp only [intercept_setup_log, hl] at h
        exact Option.noConfusion h
      · simp only [intercept_setup_log, hl, Option.some.injEq,
          Prod.mk.injEq] at h
        refine ⟨fun hno => by simp at hno, fun _ => ⟨h.1.symm, ?_⟩⟩
        exact ⟨_, _, h.2.symm⟩

/-- Witness for C7 at an OPEN sink. -/
theorem c7_sink_state_machine_witness :
    (0 : Int) ≤ (5 : Int) ∧
      intercept_log ⟨5⟩ "hi".data = [.writeBytes 5 "hi".data] :=
  ⟨by norm_num, c7_sink_state_machine.2.1 ⟨5⟩ "hi".data (by norm_num)⟩

/-- C10: `intercept_setup_log` requires a non-empty base path as an
unstated precondition: a NULL path is a documented no-op and every
non-empty path yields a defined result, but for the empty string the
pid-suffix check reads the byte at index `strlen(base) - 1 = -1`, an
out-of-bounds access with no valid result in this total embedding. -/
theorem c10_setup_log_empty_path (st : SinkState) (trunc : Option (List Char))
    (pid newFd : Int) :
    (intercept_setup_log st none trunc pid newFd = some (st, [])) ∧
    (intercept_setup_log st (some []) trunc pid newFd = none) ∧
    (∀ p : List Char, p ≠ [] →
      ∃ r, intercept_setup_log st (some p) trunc pid newFd = some r) := by
  refine ⟨rfl, rfl, ?_⟩
  intro p hp
  rcases hl : p.getLast? with _ | c
  · rw [List.getLast?_eq_none_iff] at hl
    exact absurd hl hp
  · refine ⟨(⟨newFd⟩, (intercept_log_close st).2 ++
      [.openFd (if c = '-' then p ++ print_signed_dec pid else p)
        (setupFlags trunc) 0o700]), ?_⟩
    simp only [intercept_setup_log, hl]

/-- Witness for C10 at the one-byte path `x`. -/
theorem c10_setup_log_empty_path_witness :
    ("x".data ≠ ([] : List Char)) ∧
      ∃ r, intercept_setup_log ⟨-1⟩ (some "x".data) none 7 5 = some r :=
  ⟨by decide, (c10_setup_log_empty_path ⟨-1⟩ none 7 5).2.2 "x".data (by decide)⟩

end InterceptUtil
